import Mathlib

/-!
Shallow embedding of the DynamixelY servo driver (src/dynamixel_y.py).

The driver talks to a single actuator through addressed register reads and
writes.  We embed it as explicit state-passing functions over a `Device`
record that holds the writable registers as fields and the externally
changing registers (controller state, present position, present velocity)
as streams of successive read values.  Every operation returns an
`Option (result × Device × List Event)`: `none` models a run that does not
complete normally within the supplied streams (an unbounded poll that never
settles, or a transaction failure that propagates), and the event list is
the exact sequence of register reads and writes the operation issued.

Python float arithmetic is idealised as exact rational arithmetic (ℚ), and
Python's round (banker's rounding, round half to even) is embedded as
`pyRound`.
-/

namespace DynY

/-- Register descriptor, from the `_Register` dataclass. -/
structure _Register where
  name : String
  address : Nat
  size : Nat
deriving DecidableEq, Repr

def _OPERATING_MODE : _Register := ⟨"OPERATING_MODE", 33, 1⟩

def _VELCOITY_LIMIT : _Register := ⟨"_VELCOITY_LIMIT", 72, 4⟩

def _PROFILE_VELCOITY : _Register := ⟨"_PROFILE_VELCOITY", 244, 4⟩

def _CONTROLLER_STATE : _Register := ⟨"_CONTROLLER_STATE", 152, 1⟩

def _TORQUE_ENABLE : _Register := ⟨"TORQUE_ENABLE", 512, 1⟩

def _GOAL_VELOCITY : _Register := ⟨"GOAL_VELOCITY", 528, 4⟩

def _GOAL_POSITION : _Register := ⟨"GOAL_POSITION", 532, 4⟩

def _PRESENT_CURRENT : _Register := ⟨"PRESENT_CURRENT", 546, 2⟩

def _PRESENT_VELOCITY : _Register := ⟨"PRESENT_VELOCITY", 548, 4⟩

def _PRESENT_POSITION : _Register := ⟨"PRESENT_POSITION", 552, 4⟩

/-- Operating mode enumeration, from the `_OperatingMode` enum. -/
inductive _OperatingMode
  | VELOCITY
  | POSITION
deriving DecidableEq, Repr

/-- Protocol integer code of each operating mode. -/
def _OperatingMode.value : _OperatingMode → Int
  | .VELOCITY => 1
  | .POSITION => 3

/-- Python's round: nearest integer, ties to the even neighbour. -/
def pyRound (q : ℚ) : ℤ :=
  if q - ⌊q⌋ < 1 / 2 then ⌊q⌋
  else if 1 / 2 < q - ⌊q⌋ then ⌊q⌋ + 1
  else if ⌊q⌋ % 2 = 0 then ⌊q⌋ else ⌊q⌋ + 1

/-- CRPM per degree-per-second: 1 / 0.06 (CRPM = 0.01 rev/min). -/
def CRPMS_PER_DEGREES_PER_SECOND : ℚ := 1 / (6 / 100)

/-- Encoder pulses per degree: 524288 / 360. -/
def PULSES_PER_DEGREE : ℚ := 524288 / 360

/-- Signed reinterpretation performed at the end of DynamixelY.__read:
the raw unsigned N-byte value is converted to two's-complement signed. -/
def decodeSigned (size : Nat) (value : Nat) : Int :=
  let max_unsigned_plus_one : Nat := 1 <<< (size * 8)
  if value < max_unsigned_plus_one / 2 then (value : Int)
  else (value : Int) - (max_unsigned_plus_one : Int)

/-- One observable bus transaction of the driver. -/
inductive Event
  | readE : _Register → Int → Event
  | writeE : _Register → Int → Event
  | closePortE : Event
deriving DecidableEq, Repr

/-- Device model: writable registers as fields (a write stores the value, a
read returns the stored value), externally changing registers as streams of
successive decoded read values. -/
structure Device where
  operatingMode : Int
  torqueEnable : Int
  profileVelocity : Int
  velocityLimit : Int
  goalPosition : Int
  goalVelocity : Int
  controllerStates : List Int
  presentPositions : List Int
  presentVelocities : List Int
deriving DecidableEq, Repr

/-- Perform one register read against the device (decoded value). -/
def devRead (d : Device) (r : _Register) : Option (Int × Device) :=
  if r.address = _OPERATING_MODE.address then some (d.operatingMode, d)
  else if r.address = _TORQUE_ENABLE.address then some (d.torqueEnable, d)
  else if r.address = _VELCOITY_LIMIT.address then some (d.velocityLimit, d)
  else if r.address = _PROFILE_VELCOITY.address then some (d.profileVelocity, d)
  else if r.address = _CONTROLLER_STATE.address then
    match d.controllerStates with
    | [] => none
    | v :: rest => some (v, { d with controllerStates := rest })
  else if r.address = _PRESENT_POSITION.address then
    match d.presentPositions with
    | [] => none
    | v :: rest => some (v, { d with presentPositions := rest })
  else if r.address = _PRESENT_VELOCITY.address then
    match d.presentVelocities with
    | [] => none
    | v :: rest => some (v, { d with presentVelocities := rest })
  else none

/-- Perform one register write against the device. -/
def devWrite (d : Device) (r : _Register) (v : Int) : Device :=
  if r.address = _OPERATING_MODE.address then { d with operatingMode := v }
  else if r.address = _TORQUE_ENABLE.address then { d with torqueEnable := v }
  else if r.address = _PROFILE_VELCOITY.address then { d with profileVelocity := v }
  else if r.address = _GOAL_POSITION.address then { d with goalPosition := v }
  else if r.address = _GOAL_VELOCITY.address then { d with goalVelocity := v }
  else d

/-- DynamixelY.__read as a traced transaction (the signed decoding of the
raw wire value is factored out as decodeSigned; device streams and fields
hold decoded values). -/
def readR (r : _Register) (d : Device) : Option (Int × Device × List Event) :=
  match devRead d r with
  | none => none
  | some (v, d1) => some (v, d1, [Event.readE r v])

/-- DynamixelY.__write as a traced transaction. -/
def writeR (r : _Register) (v : Int) (d : Device) : Device × List Event :=
  (devWrite d r v, [Event.writeE r v])

def PROCESSING_TORQUE_ON : Int := 4

def PROCESSING_TORQUE_OFF : Int := 6

/-- The settle loop of __wait_for_processing_torque, consuming successive
controller-state readings until one is neither busy code. -/
def waitLoop : List Int → Option (List Int × List Event)
  | [] => none
  | v :: rest =>
    if v = PROCESSING_TORQUE_ON ∨ v = PROCESSING_TORQUE_OFF then
      match waitLoop rest with
      | none => none
      | some (rem, evs) => some (rem, Event.readE _CONTROLLER_STATE v :: evs)
    else some (rest, [Event.readE _CONTROLLER_STATE v])

/-- DynamixelY.__wait_for_processing_torque. -/
def wait_for_processing_torque (d : Device) : Option (Device × List Event) :=
  match waitLoop d.controllerStates with
  | none => none
  | some (rem, evs) => some ({ d with controllerStates := rem }, evs)

/-- DynamixelY.__torque_enable: write 1 to torque-enable, then settle. -/
def torque_enable (d : Device) : Option (Device × List Event) :=
  match writeR _TORQUE_ENABLE 1 d with
  | (d1, e1) =>
    match wait_for_processing_torque d1 with
    | none => none
    | some (d2, e2) => some (d2, e1 ++ e2)

/-- DynamixelY.__torque_disable: write 0 to torque-enable, then settle. -/
def torque_disable (d : Device) : Option (Device × List Event) :=
  match writeR _TORQUE_ENABLE 0 d with
  | (d1, e1) =>
    match wait_for_processing_torque d1 with
    | none => none
    | some (d2, e2) => some (d2, e1 ++ e2)

/-- DynamixelY.__set_operating_mode: read the current mode; if it differs
from the requested mode, disable torque and write the new mode; then read
torque-enable and re-enable it when it is 0. -/
def set_operating_mode (mode : _OperatingMode) (d : Device) : Option (Device × List Event) :=
  match readR _OPERATING_MODE d with
  | none => none
  | some (m, d1, e1) =>
    let step2 : Option (Device × List Event) :=
      if m ≠ mode.value then
        match torque_disable d1 with
        | none => none
        | some (d2, e2) =>
          match writeR _OPERATING_MODE mode.value d2 with
          | (d3, e3) => some (d3, e2 ++ e3)
      else some (d1, [])
    match step2 with
    | none => none
    | some (d4, e4) =>
      match readR _TORQUE_ENABLE d4 with
      | none => none
      | some (t, d5, e5) =>
        if t = 0 then
          match torque_enable d5 with
          | none => none
          | some (d6, e6) => some (d6, e1 ++ e4 ++ e5 ++ e6)
        else some (d5, e1 ++ e4 ++ e5)

/-- The blocking poll of set_position: read present-position until it
exactly equals the goal. -/
def pollPosition (goal : Int) : List Int → Option (List Int × List Event)
  | [] => none
  | v :: rest =>
    if v = goal then some (rest, [Event.readE _PRESENT_POSITION v])
    else
      match pollPosition goal rest with
      | none => none
      | some (rem, evs) => some (rem, Event.readE _PRESENT_POSITION v :: evs)

/-- Exit test of the blocking poll of set_velocity. -/
def velExit (velocity_increased : Bool) (goal v : Int) : Bool :=
  if velocity_increased then decide (goal ≤ v) else decide (v ≤ goal)

/-- The blocking poll of set_velocity: read present-velocity until it
crosses the goal in the direction fixed by velocity_increased. -/
def pollVelocity (velocity_increased : Bool) (goal : Int) : List Int → Option (List Int × List Event)
  | [] => none
  | v :: rest =>
    if velExit velocity_increased goal v then some (rest, [Event.readE _PRESENT_VELOCITY v])
    else
      match pollVelocity velocity_increased goal rest with
      | none => none
      | some (rem, evs) => some (rem, Event.readE _PRESENT_VELOCITY v :: evs)

/-- Step 1 of set_position: the profile-velocity write.  Mirrors Python's
truthiness test (if not degrees_per_second): the velocity-limit branch is
taken when the argument is absent or equal to 0. -/
def profile_step (degrees_per_second : Option ℚ) (d : Device) : Option (Device × List Event) :=
  if degrees_per_second = none ∨ degrees_per_second = some 0 then
    match readR _VELCOITY_LIMIT d with
    | none => none
    | some (vl, d1, e1) =>
      match writeR _PROFILE_VELCOITY vl d1 with
      | (d2, e2) => some (d2, e1 ++ e2)
  else
    match degrees_per_second with
    | some dps =>
      match writeR _PROFILE_VELCOITY (pyRound (|dps| * CRPMS_PER_DEGREES_PER_SECOND)) d with
      | (d1, e1) => some (d1, e1)
    | none => none

/-- DynamixelY.set_position, fire-and-forget part: profile-velocity write,
mode enforcement, goal conversion and goal-position write, returning the
realized degrees actually commanded. -/
def set_position_command (degrees : ℚ) (degrees_per_second : Option ℚ) (d : Device) :
    Option (ℚ × Device × List Event) :=
  match profile_step degrees_per_second d with
  | none => none
  | some (d2, e12) =>
    match set_operating_mode _OperatingMode.POSITION d2 with
    | none => none
    | some (d3, e3) =>
      let goal_position : Int := pyRound (degrees * PULSES_PER_DEGREE)
      let realized : ℚ := (goal_position : ℚ) / PULSES_PER_DEGREE
      match writeR _GOAL_POSITION goal_position d3 with
      | (d4, e4) => some (realized, d4, e12 ++ e3 ++ e4)

/-- DynamixelY.set_position: issue the command; when block is true, poll
present-position until it exactly equals the integer goal. -/
def set_position (degrees : ℚ) (degrees_per_second : Option ℚ) (block : Bool) (d : Device) :
    Option (ℚ × Device × List Event) :=
  match set_position_command degrees degrees_per_second d with
  | none => none
  | some (realized, d4, tr0) =>
    if block then
      match pollPosition (pyRound (degrees * PULSES_PER_DEGREE)) d4.presentPositions with
      | none => none
      | some (rem, e5) => some (realized, { d4 with presentPositions := rem }, tr0 ++ e5)
    else some (realized, d4, tr0)

/-- DynamixelY.set_velocity, fire-and-forget part: mode enforcement, goal
conversion and goal-velocity write, returning the realized rate. -/
def set_velocity_command (degrees_per_second : ℚ) (d : Device) :
    Option (ℚ × Device × List Event) :=
  match set_operating_mode _OperatingMode.VELOCITY d with
  | none => none
  | some (d1, e1) =>
    let goal_velocity : Int := pyRound (degrees_per_second * CRPMS_PER_DEGREES_PER_SECOND)
    let realized : ℚ := (goal_velocity : ℚ) / CRPMS_PER_DEGREES_PER_SECOND
    match writeR _GOAL_VELOCITY goal_velocity d1 with
    | (d2, e2) => some (realized, d2, e1 ++ e2)

/-- DynamixelY.set_velocity: issue the command; when block is true, read
present-velocity once to fix the direction, then poll present-velocity
until it crosses the goal in that direction. -/
def set_velocity (degrees_per_second : ℚ) (block : Bool) (d : Device) :
    Option (ℚ × Device × List Event) :=
  match set_velocity_command degrees_per_second d with
  | none => none
  | some (realized, d2, tr0) =>
    if block then
      match readR _PRESENT_VELOCITY d2 with
      | none => none
      | some (pv, d3, e3) =>
        let goal_velocity : Int := pyRound (degrees_per_second * CRPMS_PER_DEGREES_PER_SECOND)
        let velocity_increased : Bool := decide (pv < goal_velocity)
        match pollVelocity velocity_increased goal_velocity d3.presentVelocities with
        | none => none
        | some (rem, e4) =>
          some (realized, { d3 with presentVelocities := rem }, tr0 ++ e3 ++ e4)
    else some (realized, d2, tr0)

/-- DynamixelY.close: disable torque, then close the transport.  A
torque-disable that does not complete propagates before closePort is
reached (there is no try/finally in the source). -/
def close (d : Device) : Option (Device × List Event) :=
  match torque_disable d with
  | none => none
  | some (d1, e1) => some (d1, e1 ++ [Event.closePortE])

/-- One attempt of a transaction under the _retry wrapper: a success, or a
failure together with the time observed by the perf_counter call in the
exception handler. -/
inductive RAttempt (ε α : Type)
  | ok : α → RAttempt ε α
  | fail : ε → ℚ → RAttempt ε α
deriving DecidableEq, Repr

/-- The loop of _retry over a stream of attempt outcomes: on success return
the value; on failure, if the observed time has reached the deadline,
propagate that failure (without reporting it); otherwise report the failure
to the diagnostic sink and retry.  Returns the final outcome paired with
the list of messages given to the sink. -/
def retryRun {ε α : Type} (deadline : ℚ) : List (RAttempt ε α) → Option (Except ε α × List ε)
  | [] => none
  | .ok v :: _ => some (Except.ok v, [])
  | .fail e t :: rest =>
    if deadline ≤ t then some (Except.error e, [])
    else
      match retryRun deadline rest with
      | none => none
      | some (r, sink) => some (r, e :: sink)

/-- _retry: the deadline is fixed at start time plus the 1-second budget,
before the first attempt. -/
def retryWrapper {ε α : Type} (start : ℚ) (attempts : List (RAttempt ε α)) :
    Option (Except ε α × List ε) :=
  retryRun (start + 1) attempts

/-- True of a write event. -/
def isWriteEvent : Event → Bool
  | .writeE _ _ => true
  | _ => false

/-- The subsequence of write events of a trace. -/
def writesOf (tr : List Event) : List Event := tr.filter isWriteEvent

/-- True of a controller-state read event (the settle poll). -/
def isCSRead : Event → Bool
  | .readE r _ => decide (r = _CONTROLLER_STATE)
  | _ => false

/-- Scan a trace keeping the current torque-enable value (seeded with the
initial device value): true when every operating-mode write happens while
torque is disabled (current value 0). -/
def modeWritesSafe : Int → List Event → Bool
  | _, [] => true
  | te, .writeE r v :: rest =>
    if r = _TORQUE_ENABLE then modeWritesSafe v rest
    else if r = _OPERATING_MODE then decide (te = 0) && modeWritesSafe te rest
    else modeWritesSafe te rest
  | te, _ :: rest => modeWritesSafe te rest

/-- Torque-enable value after a trace (seeded with the initial value). -/
def teAfter : Int → List Event → Int
  | te, [] => te
  | te, .writeE r v :: rest => teAfter (if r = _TORQUE_ENABLE then v else te) rest
  | te, _ :: rest => teAfter te rest

/-- Scan a trace keeping the current torque-enable value: true when every
goal-position or goal-velocity write happens while torque is enabled. -/
def goalWritesTorqued : Int → List Event → Bool
  | _, [] => true
  | te, .writeE r v :: rest =>
    if r = _TORQUE_ENABLE then goalWritesTorqued v rest
    else if r = _GOAL_POSITION then decide (te ≠ 0) && goalWritesTorqued te rest
    else if r = _GOAL_VELOCITY then decide (te ≠ 0) && goalWritesTorqued te rest
    else goalWritesTorqued te rest
  | te, _ :: rest => goalWritesTorqued te rest

lemma waitLoop_spec : ∀ (cs rem : List Int) (evs : List Event), waitLoop cs = some (rem, evs) →
    evs ≠ [] ∧ ∀ e ∈ evs, ∃ c, e = Event.readE _CONTROLLER_STATE c := by
  intro cs
  induction cs with
  | nil => intro rem evs h; simp [waitLoop] at h
  | cons v rest ih =>
    intro rem evs h
    by_cases hv : v = PROCESSING_TORQUE_ON ∨ v = PROCESSING_TORQUE_OFF
    · rw [waitLoop, if_pos hv] at h
      cases hw : waitLoop rest with
      | none => rw [hw] at h; exact absurd h (by simp)
      | some p =>
        obtain ⟨rem1, evs1⟩ := p
        rw [hw] at h
        simp only [Option.some.injEq, Prod.mk.injEq] at h
        obtain ⟨hrem, hevs⟩ := h
        obtain ⟨hne, hall⟩ := ih rem1 evs1 hw
        subst hevs
        refine ⟨by simp, ?_⟩
        intro e he
        rcases List.mem_cons.1 he with h1 | h1
        · exact ⟨v, h1⟩
        · exact hall e h1
    · rw [waitLoop, if_neg hv] at h
      simp only [Option.some.injEq, Prod.mk.injEq] at h
      obtain ⟨hrem, hevs⟩ := h
      subst hevs
      refine ⟨by simp, ?_⟩
      intro e he
      rcases List.mem_singleton.1 he with h1
      exact ⟨v, h1⟩

lemma wait_spec (d d' : Device) (tr : List Event) (h : wait_for_processing_torque d = some (d', tr)) :
    (∃ rem, d' = { d with controllerStates := rem }) ∧ tr ≠ [] ∧
      ∀ e ∈ tr, ∃ c, e = Event.readE _CONTROLLER_STATE c := by
  unfold wait_for_processing_torque at h
  cases hw : waitLoop d.controllerStates with
  | none => rw [hw] at h; exact absurd h (by simp)
  | some p =>
    obtain ⟨rem, evs⟩ := p
    rw [hw] at h
    simp only [Option.some.injEq, Prod.mk.injEq] at h
    obtain ⟨hd, ht⟩ := h
    obtain ⟨hne, hall⟩ := waitLoop_spec _ _ _ hw
    subst ht
    exact ⟨⟨rem, hd.symm⟩, hne, hall⟩

lemma torque_disable_spec (d d' : Device) (tr : List Event) (h : torque_disable d = some (d', tr)) :
    ∃ w rem, tr = Event.writeE _TORQUE_ENABLE 0 :: w ∧ w ≠ [] ∧
      (∀ e ∈ w, ∃ c, e = Event.readE _CONTROLLER_STATE c) ∧
      d' = { d with torqueEnable := 0, controllerStates := rem } := by
  unfold torque_disable at h
  simp only [writeR] at h
  have hdw : devWrite d _TORQUE_ENABLE 0 = { d with torqueEnable := 0 } := rfl
  rw [hdw] at h
  cases hw : wait_for_processing_torque { d with torqueEnable := 0 } with
  | none => rw [hw] at h; exact absurd h (by simp)
  | some p =>
    obtain ⟨d2, evs⟩ := p
    rw [hw] at h
    simp only [Option.some.injEq, Prod.mk.injEq, List.singleton_append] at h
    obtain ⟨hd, ht⟩ := h
    obtain ⟨⟨rem, hrem⟩, hne, hall⟩ := wait_spec _ _ _ hw
    refine ⟨evs, rem, ht.symm, hne, hall, ?_⟩
    rw [← hd, hrem]

lemma torque_enable_spec (d d' : Device) (tr : List Event) (h : torque_enable d = some (d', tr)) :
    ∃ w rem, tr = Event.writeE _TORQUE_ENABLE 1 :: w ∧ w ≠ [] ∧
      (∀ e ∈ w, ∃ c, e = Event.readE _CONTROLLER_STATE c) ∧
      d' = { d with torqueEnable := 1, controllerStates := rem } := by
  unfold torque_enable at h
  simp only [writeR] at h
  have hdw : devWrite d _TORQUE_ENABLE 1 = { d with torqueEnable := 1 } := rfl
  rw [hdw] at h
  cases hw : wait_for_processing_torque { d with torqueEnable := 1 } with
  | none => rw [hw] at h; exact absurd h (by simp)
  | some p =>
    obtain ⟨d2, evs⟩ := p
    rw [hw] at h
    simp only [Option.some.injEq, Prod.mk.injEq, List.singleton_append] at h
    obtain ⟨hd, ht⟩ := h
    obtain ⟨⟨rem, hrem⟩, hne, hall⟩ := wait_spec _ _ _ hw
    refine ⟨evs, rem, ht.symm, hne, hall, ?_⟩
    rw [← hd, hrem]

lemma readR_OM (d : Device) : readR _OPERATING_MODE d =
    some (d.operatingMode, d, [Event.readE _OPERATING_MODE d.operatingMode]) := rfl

lemma readR_TE (d : Device) : readR _TORQUE_ENABLE d =
    some (d.torqueEnable, d, [Event.readE _TORQUE_ENABLE d.torqueEnable]) := rfl

lemma readR_VL (d : Device) : readR _VELCOITY_LIMIT d =
    some (d.velocityLimit, d, [Event.readE _VELCOITY_LIMIT d.velocityLimit]) := rfl

lemma devWrite_OM (d : Device) (v : Int) :
    devWrite d _OPERATING_MODE v = { d with operatingMode := v } := rfl

lemma devWrite_PV (d : Device) (v : Int) :
    devWrite d _PROFILE_VELCOITY v = { d with profileVelocity := v } := rfl

lemma devWrite_GP (d : Device) (v : Int) :
    devWrite d _GOAL_POSITION v = { d with goalPosition := v } := rfl

lemma devWrite_GV (d : Device) (v : Int) :
    devWrite d _GOAL_VELOCITY v = { d with goalVelocity := v } := rfl

lemma teAfter_append : ∀ (l1 : List Event) (te : Int) (l2 : List Event),
    teAfter te (l1 ++ l2) = teAfter (teAfter te l1) l2 := by
  intro l1
  induction l1 with
  | nil => intro te l2; rfl
  | cons e rest ih =>
    intro te l2
    cases e with
    | readE r v => simp only [List.cons_append, List.append_eq, teAfter, ih]
    | writeE r v => simp only [List.cons_append, List.append_eq, teAfter, ih]
    | closePortE => simp only [List.cons_append, List.append_eq, teAfter, ih]

lemma modeWritesSafe_append : ∀ (l1 : List Event) (te : Int) (l2 : List Event),
    modeWritesSafe te (l1 ++ l2) =
      (modeWritesSafe te l1 && modeWritesSafe (teAfter te l1) l2) := by
  intro l1
  induction l1 with
  | nil => intro te l2; simp [modeWritesSafe, teAfter]
  | cons e rest ih =>
    intro te l2
    cases e with
    | readE r v => simp only [List.cons_append, List.append_eq, modeWritesSafe, teAfter, ih]
    | closePortE => simp only [List.cons_append, List.append_eq, modeWritesSafe, teAfter, ih]
    | writeE r v =>
      by_cases h1 : r = _TORQUE_ENABLE
      · simp only [List.cons_append, List.append_eq, modeWritesSafe, teAfter, if_pos h1, ih]
      · by_cases h2 : r = _OPERATING_MODE
        · simp only [List.cons_append, List.append_eq, modeWritesSafe, teAfter, if_neg h1, if_pos h2, ih,
            Bool.and_assoc]
        · simp only [List.cons_append, List.append_eq, modeWritesSafe, teAfter, if_neg h1, if_neg h2, ih]

lemma goalWritesTorqued_append : ∀ (l1 : List Event) (te : Int) (l2 : List Event),
    goalWritesTorqued te (l1 ++ l2) =
      (goalWritesTorqued te l1 && goalWritesTorqued (teAfter te l1) l2) := by
  intro l1
  induction l1 with
  | nil => intro te l2; simp [goalWritesTorqued, teAfter]
  | cons e rest ih =>
    intro te l2
    cases e with
    | readE r v => simp only [List.cons_append, List.append_eq, goalWritesTorqued, teAfter, ih]
    | closePortE => simp only [List.cons_append, List.append_eq, goalWritesTorqued, teAfter, ih]
    | writeE r v =>
      by_cases h1 : r = _TORQUE_ENABLE
      · simp only [List.cons_append, List.append_eq, goalWritesTorqued, teAfter, if_pos h1, ih]
      · by_cases h2 : r = _GOAL_POSITION
        · simp only [List.cons_append, List.append_eq, goalWritesTorqued, teAfter, if_neg h1, if_pos h2, ih,
            Bool.and_assoc]
        · by_cases h3 : r = _GOAL_VELOCITY
          · simp only [List.cons_append, List.append_eq, goalWritesTorqued, teAfter, if_neg h1, if_neg h2,
              if_pos h3, ih, Bool.and_assoc]
          · simp only [List.cons_append, List.append_eq, goalWritesTorqued, teAfter, if_neg h1, if_neg h2,
              if_neg h3, ih]

lemma teAfter_reads : ∀ (l : List Event) (te : Int),
    (∀ e ∈ l, ∃ r c, e = Event.readE r c) → teAfter te l = te := by
  intro l
  induction l with
  | nil => intro te _; rfl
  | cons e rest ih =>
    intro te h
    obtain ⟨r, c, he⟩ := h e (List.mem_cons_self e rest)
    subst he
    exact ih te fun x hx => h x (List.mem_cons_of_mem _ hx)

lemma modeWritesSafe_reads : ∀ (l : List Event) (te : Int),
    (∀ e ∈ l, ∃ r c, e = Event.readE r c) → modeWritesSafe te l = true := by
  intro l
  induction l with
  | nil => intro te _; rfl
  | cons e rest ih =>
    intro te h
    obtain ⟨r, c, he⟩ := h e (List.mem_cons_self e rest)
    subst he
    exact ih te fun x hx => h x (List.mem_cons_of_mem _ hx)

lemma goalWritesTorqued_reads : ∀ (l : List Event) (te : Int),
    (∀ e ∈ l, ∃ r c, e = Event.readE r c) → goalWritesTorqued te l = true := by
  intro l
  induction l with
  | nil => intro te _; rfl
  | cons e rest ih =>
    intro te h
    obtain ⟨r, c, he⟩ := h e (List.mem_cons_self e rest)
    subst he
    exact ih te fun x hx => h x (List.mem_cons_of_mem _ hx)

lemma csReads_are_reads {l : List Event}
    (h : ∀ e ∈ l, ∃ c, e = Event.readE _CONTROLLER_STATE c) :
    ∀ e ∈ l, ∃ r c, e = Event.readE r c := by
  intro e he
  obtain ⟨c, hc⟩ := h e he
  exact ⟨_, c, hc⟩

lemma som_same_on (mode : _OperatingMode) (d : Device)
    (hm : d.operatingMode = mode.value) (ht : d.torqueEnable ≠ 0) :
    set_operating_mode mode d = some (d,
      [Event.readE _OPERATING_MODE d.operatingMode, Event.readE _TORQUE_ENABLE d.torqueEnable]) := by
  have hcond : ¬(d.operatingMode ≠ mode.value) := by simp [hm]
  unfold set_operating_mode
  rw [readR_OM]
  simp only [if_neg hcond, readR_TE, if_neg ht]
  simp

lemma som_same_off (mode : _OperatingMode) (d d' : Device) (tr : List Event)
    (hm : d.operatingMode = mode.value) (ht : d.torqueEnable = 0)
    (h : set_operating_mode mode d = some (d', tr)) :
    ∃ w rem, tr = Event.readE _OPERATING_MODE d.operatingMode ::
        Event.readE _TORQUE_ENABLE 0 :: Event.writeE _TORQUE_ENABLE 1 :: w ∧
      w ≠ [] ∧ (∀ e ∈ w, ∃ c, e = Event.readE _CONTROLLER_STATE c) ∧
      d' = { d with torqueEnable := 1, controllerStates := rem } := by
  have hcond : ¬(d.operatingMode ≠ mode.value) := by simp [hm]
  unfold set_operating_mode at h
  rw [readR_OM] at h
  simp only [if_neg hcond, readR_TE, ht, if_pos rfl, eq_self_iff_true, ite_true] at h
  cases he : torque_enable d with
  | none => rw [he] at h; exact absurd h (by simp)
  | some p =>
    obtain ⟨d6, e6⟩ := p
    rw [he] at h
    simp only [Option.some.injEq, Prod.mk.injEq] at h
    obtain ⟨rfl, rfl⟩ := h
    obtain ⟨w, rem, hw, hwne, hwall, hd6⟩ := torque_enable_spec _ _ _ he
    refine ⟨w, rem, ?_, hwne, hwall, hd6⟩
    rw [hw]
    simp

lemma som_diff (mode : _OperatingMode) (d d' : Device) (tr : List Event)
    (hm : d.operatingMode ≠ mode.value)
    (h : set_operating_mode mode d = some (d', tr)) :
    ∃ w1 w2 rem, tr = Event.readE _OPERATING_MODE d.operatingMode ::
        Event.writeE _TORQUE_ENABLE 0 ::
        (w1 ++ Event.writeE _OPERATING_MODE mode.value :: Event.readE _TORQUE_ENABLE 0 ::
          Event.writeE _TORQUE_ENABLE 1 :: w2) ∧
      w1 ≠ [] ∧ w2 ≠ [] ∧
      (∀ e ∈ w1, ∃ c, e = Event.readE _CONTROLLER_STATE c) ∧
      (∀ e ∈ w2, ∃ c, e = Event.readE _CONTROLLER_STATE c) ∧
      d' = { d with operatingMode := mode.value, torqueEnable := 1, controllerStates := rem } := by
  unfold set_operating_mode at h
  rw [readR_OM] at h
  simp only [if_pos hm, ne_eq, hm, not_false_eq_true, ite_true] at h
  cases hdis : torque_disable d with
  | none => rw [hdis] at h; exact absurd h (by simp)
  | some p =>
    obtain ⟨d2, e2⟩ := p
    rw [hdis] at h
    obtain ⟨w1, rem1, hw1, hw1ne, hw1all, hd2⟩ := torque_disable_spec _ _ _ hdis
    have hd2te : d2.torqueEnable = 0 := by rw [hd2]
    simp only [writeR, devWrite_OM, readR_TE, hd2te, if_pos rfl, eq_self_iff_true, ite_true] at h
    cases hen : torque_enable { d2 with operatingMode := mode.value, torqueEnable := 0 } with
    | none => rw [hen] at h; exact absurd h (by simp)
    | some p2 =>
      obtain ⟨d6, e6⟩ := p2
      rw [hen] at h
      simp only [Option.some.injEq, Prod.mk.injEq] at h
      obtain ⟨rfl, rfl⟩ := h
      obtain ⟨w2, rem2, hw2, hw2ne, hw2all, hd6⟩ := torque_enable_spec _ _ _ hen
      refine ⟨w1, w2, rem2, ?_, hw1ne, hw2ne, hw1all, hw2all, ?_⟩
      · rw [hw1, hw2]
        simp
      · rw [hd6, hd2]

lemma som_general (mode : _OperatingMode) (d d' : Device) (tr : List Event)
    (h : set_operating_mode mode d = some (d', tr)) :
    modeWritesSafe d.torqueEnable tr = true ∧
    goalWritesTorqued d.torqueEnable tr = true ∧
    teAfter d.torqueEnable tr = d'.torqueEnable ∧
    d'.torqueEnable ≠ 0 ∧
    d'.operatingMode = mode.value ∧
    d'.profileVelocity = d.profileVelocity ∧
    d'.velocityLimit = d.velocityLimit ∧
    d'.goalPosition = d.goalPosition ∧
    d'.goalVelocity = d.goalVelocity ∧
    d'.presentPositions = d.presentPositions ∧
    d'.presentVelocities = d.presentVelocities := by
  by_cases hm : d.operatingMode = mode.value
  · by_cases ht : d.torqueEnable = 0
    · obtain ⟨w, rem, htr, hwne, hwall, hd'⟩ := som_same_off mode d d' tr hm ht h
      have hreads := csReads_are_reads hwall
      subst htr
      subst hd'
      refine ⟨?_, ?_, ?_, by simp, by simp [hm], by simp, by simp, by simp, by simp, by simp,
        by simp⟩
      · simp only [modeWritesSafe, eq_self_iff_true, ite_true, if_pos rfl]
        exact modeWritesSafe_reads w 1 hreads
      · simp only [goalWritesTorqued, eq_self_iff_true, ite_true, if_pos rfl]
        exact goalWritesTorqued_reads w 1 hreads
      · simp only [teAfter, eq_self_iff_true, ite_true, if_pos rfl]
        simp [teAfter_reads w 1 hreads]
    · rw [som_same_on mode d hm ht] at h
      simp only [Option.some.injEq, Prod.mk.injEq] at h
      obtain ⟨rfl, rfl⟩ := h
      exact ⟨by simp [modeWritesSafe], by simp [goalWritesTorqued], by simp [teAfter], ht,
        hm, rfl, rfl, rfl, rfl, rfl, rfl⟩
  · obtain ⟨w1, w2, rem, htr, hw1ne, hw2ne, hw1all, hw2all, hd'⟩ := som_diff mode d d' tr hm h
    have hr1 := csReads_are_reads hw1all
    have hr2 := csReads_are_reads hw2all
    subst htr
    subst hd'
    refine ⟨?_, ?_, ?_, by simp, by simp, by simp, by simp, by simp, by simp, by simp, by simp⟩
    · simp only [modeWritesSafe, eq_self_iff_true, ite_true, if_pos rfl]
      rw [modeWritesSafe_append, modeWritesSafe_reads w1 0 hr1, teAfter_reads w1 0 hr1]
      simp only [Bool.true_and]
      simp only [modeWritesSafe, _OPERATING_MODE, _TORQUE_ENABLE, _Register.mk.injEq]
      norm_num
      exact modeWritesSafe_reads w2 1 hr2
    · simp only [goalWritesTorqued, eq_self_iff_true, ite_true, if_pos rfl]
      rw [goalWritesTorqued_append, goalWritesTorqued_reads w1 0 hr1, teAfter_reads w1 0 hr1]
      simp only [Bool.true_and]
      simp only [goalWritesTorqued, _OPERATING_MODE, _TORQUE_ENABLE, _GOAL_POSITION,
        _GOAL_VELOCITY, _Register.mk.injEq]
      norm_num
      exact goalWritesTorqued_reads w2 1 hr2
    · simp only [teAfter, eq_self_iff_true, ite_true, if_pos rfl]
      rw [teAfter_append, teAfter_reads w1 0 hr1]
      simp only [teAfter, _OPERATING_MODE, _TORQUE_ENABLE, _Register.mk.injEq]
      norm_num
      simp [teAfter_reads w2 1 hr2]

lemma pollPosition_spec : ∀ (ps : List Int) (goal : Int) (rem : List Int) (evs : List Event),
    pollPosition goal ps = some (rem, evs) →
    ∃ pre, ps = pre ++ goal :: rem ∧ (∀ v ∈ pre, v ≠ goal) ∧
      evs = pre.map (Event.readE _PRESENT_POSITION) ++ [Event.readE _PRESENT_POSITION goal] := by
  intro ps
  induction ps with
  | nil => intro goal rem evs h; simp [pollPosition] at h
  | cons v rest ih =>
    intro goal rem evs h
    by_cases hv : v = goal
    · subst hv
      rw [pollPosition, if_pos rfl] at h
      simp only [Option.some.injEq, Prod.mk.injEq] at h
      obtain ⟨rfl, rfl⟩ := h
      exact ⟨[], by simp, by simp, by simp⟩
    · rw [pollPosition, if_neg hv] at h
      cases hp : pollPosition goal rest with
      | none => rw [hp] at h; exact absurd h (by simp)
      | some p =>
        obtain ⟨rem1, evs1⟩ := p
        rw [hp] at h
        simp only [Option.some.injEq, Prod.mk.injEq] at h
        obtain ⟨rfl, rfl⟩ := h
        obtain ⟨pre, hps, hpre, hevs⟩ := ih goal rem1 evs1 hp
        refine ⟨v :: pre, by simp [hps], ?_, by simp [hevs]⟩
        intro x hx
        rcases List.mem_cons.1 hx with h1 | h1
        · subst h1; exact hv
        · exact hpre x h1

lemma pollVelocity_spec : ∀ (vs : List Int) (inc : Bool) (goal : Int) (rem : List Int)
    (evs : List Event), pollVelocity inc goal vs = some (rem, evs) →
    ∃ pre w, vs = pre ++ w :: rem ∧ (∀ v ∈ pre, velExit inc goal v = false) ∧
      velExit inc goal w = true ∧
      evs = pre.map (Event.readE _PRESENT_VELOCITY) ++ [Event.readE _PRESENT_VELOCITY w] := by
  intro vs
  induction vs with
  | nil => intro inc goal rem evs h; simp [pollVelocity] at h
  | cons v rest ih =>
    intro inc goal rem evs h
    by_cases hv : velExit inc goal v = true
    · rw [pollVelocity, if_pos hv] at h
      simp only [Option.some.injEq, Prod.mk.injEq] at h
      obtain ⟨rfl, rfl⟩ := h
      exact ⟨[], v, by simp, by simp, hv, by simp⟩
    · rw [pollVelocity, if_neg hv] at h
      cases hp : pollVelocity inc goal rest with
      | none => rw [hp] at h; exact absurd h (by simp)
      | some p =>
        obtain ⟨rem1, evs1⟩ := p
        rw [hp] at h
        simp only [Option.some.injEq, Prod.mk.injEq] at h
        obtain ⟨rfl, rfl⟩ := h
        obtain ⟨pre, w, hps, hpre, hw, hevs⟩ := ih inc goal rem1 evs1 hp
        refine ⟨v :: pre, w, by simp [hps], ?_, hw, by simp [hevs]⟩
        intro x hx
        rcases List.mem_cons.1 hx with h1 | h1
        · subst h1; exact Bool.not_eq_true _ ▸ hv
        · exact hpre x h1

lemma profile_step_none (d : Device) : profile_step none d =
    some ({ d with profileVelocity := d.velocityLimit },
      [Event.readE _VELCOITY_LIMIT d.velocityLimit,
       Event.writeE _PROFILE_VELCOITY d.velocityLimit]) := by
  unfold profile_step
  rw [if_pos (Or.inl rfl), readR_VL]
  simp [writeR, devWrite_PV]

lemma profile_step_zero (d : Device) : profile_step (some 0) d =
    some ({ d with profileVelocity := d.velocityLimit },
      [Event.readE _VELCOITY_LIMIT d.velocityLimit,
       Event.writeE _PROFILE_VELCOITY d.velocityLimit]) := by
  unfold profile_step
  rw [if_pos (Or.inr rfl), readR_VL]
  simp [writeR, devWrite_PV]

lemma profile_step_some (dps : ℚ) (hdps : dps ≠ 0) (d : Device) : profile_step (some dps) d =
    some ({ d with profileVelocity := pyRound (|dps| * CRPMS_PER_DEGREES_PER_SECOND) },
      [Event.writeE _PROFILE_VELCOITY (pyRound (|dps| * CRPMS_PER_DEGREES_PER_SECOND))]) := by
  have hcond : ¬((some dps : Option ℚ) = none ∨ (some dps : Option ℚ) = some 0) := by
    simp [hdps]
  unfold profile_step
  rw [if_neg hcond]
  simp [writeR, devWrite_PV]

lemma profile_step_general (dps : Option ℚ) (d d1 : Device) (tr : List Event) (te : Int)
    (h : profile_step dps d = some (d1, tr)) :
    modeWritesSafe te tr = true ∧ goalWritesTorqued te tr = true ∧ teAfter te tr = te ∧
    d1.operatingMode = d.operatingMode ∧ d1.torqueEnable = d.torqueEnable ∧
    d1.velocityLimit = d.velocityLimit ∧
    d1.goalPosition = d.goalPosition ∧ d1.goalVelocity = d.goalVelocity ∧
    d1.controllerStates = d.controllerStates ∧
    d1.presentPositions = d.presentPositions ∧ d1.presentVelocities = d.presentVelocities := by
  have step : ∀ x : Int, tr = [Event.readE _VELCOITY_LIMIT x, Event.writeE _PROFILE_VELCOITY x]
      ∨ tr = [Event.writeE _PROFILE_VELCOITY x] →
      modeWritesSafe te tr = true ∧ goalWritesTorqued te tr = true ∧ teAfter te tr = te := by
    intro x hx
    rcases hx with hx | hx <;> subst hx <;>
      exact ⟨by simp [modeWritesSafe, _PROFILE_VELCOITY, _TORQUE_ENABLE, _OPERATING_MODE],
        by simp [goalWritesTorqued, _PROFILE_VELCOITY, _TORQUE_ENABLE, _GOAL_POSITION,
          _GOAL_VELOCITY],
        by simp [teAfter, _PROFILE_VELCOITY, _TORQUE_ENABLE]⟩
  rcases Option.eq_none_or_eq_some dps with hd | ⟨q, hq⟩
  · subst hd
    rw [profile_step_none] at h
    simp only [Option.some.injEq, Prod.mk.injEq] at h
    obtain ⟨rfl, rfl⟩ := h
    exact ⟨(step d.velocityLimit (Or.inl rfl)).1, (step d.velocityLimit (Or.inl rfl)).2.1,
      (step d.velocityLimit (Or.inl rfl)).2.2, rfl, rfl, rfl, rfl, rfl, rfl, rfl, rfl⟩
  · subst hq
    by_cases hz : q = 0
    · subst hz
      rw [profile_step_zero] at h
      simp only [Option.some.injEq, Prod.mk.injEq] at h
      obtain ⟨rfl, rfl⟩ := h
      exact ⟨(step d.velocityLimit (Or.inl rfl)).1, (step d.velocityLimit (Or.inl rfl)).2.1,
        (step d.velocityLimit (Or.inl rfl)).2.2, rfl, rfl, rfl, rfl, rfl, rfl, rfl, rfl⟩
    · rw [profile_step_some q hz] at h
      simp only [Option.some.injEq, Prod.mk.injEq] at h
      obtain ⟨rfl, rfl⟩ := h
      refine ⟨(step _ (Or.inr rfl)).1, (step _ (Or.inr rfl)).2.1, (step _ (Or.inr rfl)).2.2,
        rfl, rfl, rfl, rfl, rfl, rfl, rfl, rfl⟩

lemma readR_PV_nil (d : Device) (h : d.presentVelocities = []) :
    readR _PRESENT_VELOCITY d = none := by
  simp [readR, devRead, h, _PRESENT_VELOCITY, _OPERATING_MODE, _TORQUE_ENABLE, _VELCOITY_LIMIT,
    _PROFILE_VELCOITY, _CONTROLLER_STATE, _PRESENT_POSITION]

lemma readR_PV_cons (d : Device) (pv : Int) (vs : List Int) (h : d.presentVelocities = pv :: vs) :
    readR _PRESENT_VELOCITY d =
      some (pv, { d with presentVelocities := vs }, [Event.readE _PRESENT_VELOCITY pv]) := by
  simp [readR, devRead, h, _PRESENT_VELOCITY, _OPERATING_MODE, _TORQUE_ENABLE, _VELCOITY_LIMIT,
    _PROFILE_VELCOITY, _CONTROLLER_STATE, _PRESENT_POSITION]

lemma set_position_false (degrees : ℚ) (dps : Option ℚ) (d : Device) :
    set_position degrees dps false d = set_position_command degrees dps d := by
  unfold set_position
  cases h : set_position_command degrees dps d with
  | none => rfl
  | some p =>
    obtain ⟨res, d4, tr0⟩ := p
    simp

lemma set_position_command_spec (degrees : ℚ) (dps : Option ℚ) (d : Device) (res : ℚ)
    (d4 : Device) (tr0 : List Event)
    (h : set_position_command degrees dps d = some (res, d4, tr0)) :
    res = (pyRound (degrees * PULSES_PER_DEGREE) : ℚ) / PULSES_PER_DEGREE ∧
    ∃ d2 e12 d3 e3, profile_step dps d = some (d2, e12) ∧
      set_operating_mode _OperatingMode.POSITION d2 = some (d3, e3) ∧
      d4 = { d3 with goalPosition := pyRound (degrees * PULSES_PER_DEGREE) } ∧
      tr0 = e12 ++ e3 ++ [Event.writeE _GOAL_POSITION (pyRound (degrees * PULSES_PER_DEGREE))] := by
  unfold set_position_command at h
  cases hps : profile_step dps d with
  | none => rw [hps] at h; exact absurd h (by simp)
  | some p1 =>
    obtain ⟨d2, e12⟩ := p1
    rw [hps] at h
    cases hsom : set_operating_mode _OperatingMode.POSITION d2 with
    | none =>
      simp only [hsom] at h
      exact absurd h (by simp)
    | some p2 =>
      obtain ⟨d3, e3⟩ := p2
      simp only [hsom, writeR, devWrite_GP, Option.some.injEq, Prod.mk.injEq] at h
      obtain ⟨rfl, rfl, rfl⟩ := h
      exact ⟨rfl, d2, e12, d3, e3, rfl, hsom, rfl, rfl⟩

lemma set_position_true_decomp (degrees : ℚ) (dps : Option ℚ) (d : Device) (res : ℚ)
    (d' : Device) (tr : List Event) (h : set_position degrees dps true d = some (res, d', tr)) :
    ∃ d4 tr0 rem e5, set_position_command degrees dps d = some (res, d4, tr0) ∧
      pollPosition (pyRound (degrees * PULSES_PER_DEGREE)) d4.presentPositions = some (rem, e5) ∧
      d' = { d4 with presentPositions := rem } ∧ tr = tr0 ++ e5 := by
  unfold set_position at h
  cases hc : set_position_command degrees dps d with
  | none => rw [hc] at h; exact absurd h (by simp)
  | some p =>
    obtain ⟨res0, d4, tr0⟩ := p
    rw [hc] at h
    simp only [eq_self_iff_true, ite_true, if_pos rfl] at h
    cases hp : pollPosition (pyRound (degrees * PULSES_PER_DEGREE)) d4.presentPositions with
    | none => rw [hp] at h; exact absurd h (by simp)
    | some p2 =>
      obtain ⟨rem, e5⟩ := p2
      rw [hp] at h
      simp only [Option.some.injEq, Prod.mk.injEq] at h
      obtain ⟨rfl, rfl, rfl⟩ := h
      exact ⟨d4, tr0, rem, e5, rfl, hp, rfl, rfl⟩

lemma set_velocity_false (dps : ℚ) (d : Device) :
    set_velocity dps false d = set_velocity_command dps d := by
  unfold set_velocity
  cases h : set_velocity_command dps d with
  | none => rfl
  | some p =>
    obtain ⟨res, d2, tr0⟩ := p
    simp

lemma set_velocity_command_spec (dps : ℚ) (d : Device) (res : ℚ) (d2 : Device) (tr0 : List Event)
    (h : set_velocity_command dps d = some (res, d2, tr0)) :
    res = (pyRound (dps * CRPMS_PER_DEGREES_PER_SECOND) : ℚ) / CRPMS_PER_DEGREES_PER_SECOND ∧
    ∃ d1 e1, set_operating_mode _OperatingMode.VELOCITY d = some (d1, e1) ∧
      d2 = { d1 with goalVelocity := pyRound (dps * CRPMS_PER_DEGREES_PER_SECOND) } ∧
      tr0 = e1 ++ [Event.writeE _GOAL_VELOCITY (pyRound (dps * CRPMS_PER_DEGREES_PER_SECOND))] := by
  unfold set_velocity_command at h
  cases hsom : set_operating_mode _OperatingMode.VELOCITY d with
  | none => rw [hsom] at h; exact absurd h (by simp)
  | some p =>
    obtain ⟨d1, e1⟩ := p
    rw [hsom] at h
    simp only [writeR, devWrite_GV, Option.some.injEq, Prod.mk.injEq] at h
    obtain ⟨rfl, rfl, rfl⟩ := h
    exact ⟨rfl, d1, e1, rfl, rfl, rfl⟩

lemma set_velocity_true_decomp (dps : ℚ) (d : Device) (res : ℚ) (d' : Device) (tr : List Event)
    (h : set_velocity dps true d = some (res, d', tr)) :
    ∃ d2 tr0 pv vs rem e4, set_velocity_command dps d = some (res, d2, tr0) ∧
      d2.presentVelocities = pv :: vs ∧
      pollVelocity (decide (pv < pyRound (dps * CRPMS_PER_DEGREES_PER_SECOND)))
        (pyRound (dps * CRPMS_PER_DEGREES_PER_SECOND)) vs = some (rem, e4) ∧
      d' = { d2 with presentVelocities := rem } ∧
      tr = tr0 ++ [Event.readE _PRESENT_VELOCITY pv] ++ e4 := by
  unfold set_velocity at h
  cases hc : set_velocity_command dps d with
  | none => rw [hc] at h; exact absurd h (by simp)
  | some p =>
    obtain ⟨res0, d2, tr0⟩ := p
    rw [hc] at h
    simp only [eq_self_iff_true, ite_true, if_pos rfl] at h
    cases hvs : d2.presentVelocities with
    | nil =>
      simp only [readR_PV_nil d2 hvs] at h
      exact absurd h (by simp)
    | cons pv vs =>
      simp only [readR_PV_cons d2 pv vs hvs] at h
      cases hp : pollVelocity (decide (pv < pyRound (dps * CRPMS_PER_DEGREES_PER_SECOND)))
          (pyRound (dps * CRPMS_PER_DEGREES_PER_SECOND)) vs with
      | none =>
        simp only [hp] at h
        exact absurd h (by simp)
      | some p2 =>
        obtain ⟨rem, e4⟩ := p2
        simp only [hp, Option.some.injEq, Prod.mk.injEq] at h
        obtain ⟨rfl, rfl, rfl⟩ := h
        exact ⟨d2, tr0, pv, vs, rem, e4, rfl, hvs, hp, rfl, by simp⟩

lemma pyRound_dist (q : ℚ) : |(pyRound q : ℚ) - q| ≤ 1 / 2 := by
  unfold pyRound
  have h0 : (0 : ℚ) ≤ q - ⌊q⌋ := sub_nonneg.2 (Int.floor_le q)
  have h1 : q - ⌊q⌋ < 1 := by
    have := Int.lt_floor_add_one q
    push_cast at this
    linarith
  by_cases hc1 : q - ⌊q⌋ < 1 / 2
  · rw [if_pos hc1, abs_sub_comm, abs_of_nonneg h0]
    linarith
  · rw [if_neg hc1]
    by_cases hc2 : 1 / 2 < q - ⌊q⌋
    · rw [if_pos hc2]
      push_cast
      rw [abs_of_nonneg (by linarith)]
      linarith
    · rw [if_neg hc2]
      have heq : q - ⌊q⌋ = 1 / 2 := le_antisymm (not_lt.1 hc2) (not_lt.1 hc1)
      by_cases hpar : ⌊q⌋ % 2 = 0
      · rw [if_pos hpar, abs_sub_comm, abs_of_nonneg h0]
        linarith
      · rw [if_neg hpar]
        push_cast
        rw [abs_of_nonneg (by linarith)]
        linarith

lemma roundtrip_le (d : ℚ) :
    |(pyRound (d * PULSES_PER_DEGREE) : ℚ) / PULSES_PER_DEGREE - d| ≤
      (1 / 2) / PULSES_PER_DEGREE := by
  have hk : (0 : ℚ) < PULSES_PER_DEGREE := by norm_num [PULSES_PER_DEGREE]
  have hrw : (pyRound (d * PULSES_PER_DEGREE) : ℚ) / PULSES_PER_DEGREE - d
      = ((pyRound (d * PULSES_PER_DEGREE) : ℚ) - d * PULSES_PER_DEGREE) / PULSES_PER_DEGREE := by
    field_simp
    ring
  rw [hrw, abs_div, abs_of_pos hk]
  have h := pyRound_dist (d * PULSES_PER_DEGREE)
  gcongr

lemma decodeSigned_eq (n : Nat) (hn : 1 ≤ n) (v : Nat) :
    decodeSigned n v = if v < 2 ^ (n * 8 - 1) then (v : Int) else (v : Int) - 2 ^ (n * 8) := by
  simp only [decodeSigned]
  have h2 : (1 <<< (n * 8)) = 2 ^ (n * 8) := by rw [Nat.shiftLeft_eq, one_mul]
  have hdiv : 2 ^ (n * 8) / 2 = 2 ^ (n * 8 - 1) := by
    have hsplit : n * 8 = (n * 8 - 1) + 1 := by omega
    rw [hsplit, pow_succ]
    exact Nat.mul_div_cancel _ (by norm_num)
  rw [h2, hdiv]
  by_cases hv : v < 2 ^ (n * 8 - 1)
  · rw [if_pos hv, if_pos hv]
  · rw [if_neg hv, if_neg hv]
    push_cast
    ring

lemma retryRun_ok {ε α : Type} (deadline : ℚ) (fails : List (ε × ℚ)) (v : α)
    (rest : List (RAttempt ε α)) (hf : ∀ p ∈ fails, p.2 < deadline) :
    retryRun deadline (fails.map (fun p => RAttempt.fail p.1 p.2) ++ RAttempt.ok v :: rest)
      = some (Except.ok v, fails.map Prod.fst) := by
  induction fails with
  | nil => simp [retryRun]
  | cons p ps ih =>
    obtain ⟨e, t⟩ := p
    have ht : t < deadline := hf (e, t) (List.mem_cons_self _ _)
    simp only [List.map_cons, List.cons_append, List.append_eq, retryRun]
    rw [if_neg (not_le.2 ht), ih fun x hx => hf x (List.mem_cons_of_mem _ hx)]

lemma retryRun_fail {ε α : Type} (deadline : ℚ) (fails : List (ε × ℚ)) (e : ε) (t : ℚ)
    (rest : List (RAttempt ε α)) (hf : ∀ p ∈ fails, p.2 < deadline) (ht : deadline ≤ t) :
    retryRun deadline (fails.map (fun p => RAttempt.fail p.1 p.2) ++ RAttempt.fail e t :: rest)
      = some (Except.error e, fails.map Prod.fst) := by
  induction fails with
  | nil =>
    simp only [List.map_nil, List.nil_append, retryRun]
    rw [if_pos ht]
  | cons p ps ih =>
    obtain ⟨e1, t1⟩ := p
    have ht1 : t1 < deadline := hf (e1, t1) (List.mem_cons_self _ _)
    simp only [List.map_cons, List.cons_append, List.append_eq, retryRun]
    rw [if_neg (not_le.2 ht1), ih fun x hx => hf x (List.mem_cons_of_mem _ hx)]

/-- C9: converting degrees to integer pulses with pyRound and back by
dividing by the pulses-per-degree factor changes the value by less than
360/524288 degrees. -/
theorem claim_C9_roundtrip (d : ℚ) :
    |(pyRound (d * PULSES_PER_DEGREE) : ℚ) / PULSES_PER_DEGREE - d| < 360 / 524288 := by
  have h := roundtrip_le d
  have : ((1 : ℚ) / 2) / PULSES_PER_DEGREE < 360 / 524288 := by
    norm_num [PULSES_PER_DEGREE]
  linarith

/-- C4: the signed decoding of DynamixelY.__read maps an unsigned N-byte
raw value v (N in 1, 2, 4) to v when v < 2^(8N-1) and to v - 2^(8N)
otherwise; in particular 1-byte 255 decodes to -1, 1-byte 127 to 127, and
4-byte 2^32-1 to -1. -/
theorem claim_C4_signed_decoding :
    (∀ r : _Register, r.size = 1 ∨ r.size = 2 ∨ r.size = 4 →
      ∀ v : Nat, v < 2 ^ (r.size * 8) →
        decodeSigned r.size v =
          if v < 2 ^ (r.size * 8 - 1) then (v : Int) else (v : Int) - 2 ^ (r.size * 8)) ∧
    decodeSigned 1 255 = -1 ∧ decodeSigned 1 127 = 127 ∧
    decodeSigned 4 (2 ^ 32 - 1) = -1 := by
  refine ⟨?_, by decide, by decide, ?_⟩
  · intro r hr v hv
    apply decodeSigned_eq
    rcases hr with h | h | h <;> omega
  · rw [decodeSigned_eq 4 (by norm_num)]
    norm_num

/-- Witness for C4 at the torque-enable register (size 1) and raw value
255. -/
theorem claim_C4_witness :
    (_TORQUE_ENABLE.size = 1 ∨ _TORQUE_ENABLE.size = 2 ∨ _TORQUE_ENABLE.size = 4) ∧
    (255 : Nat) < 2 ^ (_TORQUE_ENABLE.size * 8) ∧
    decodeSigned _TORQUE_ENABLE.size 255 =
      (if (255 : Nat) < 2 ^ (_TORQUE_ENABLE.size * 8 - 1) then ((255 : Nat) : Int)
       else ((255 : Nat) : Int) - 2 ^ (_TORQUE_ENABLE.size * 8)) :=
  ⟨Or.inl rfl, by norm_num [_TORQUE_ENABLE],
    claim_C4_signed_decoding.1 _TORQUE_ENABLE (Or.inl rfl) 255 (by norm_num [_TORQUE_ENABLE])⟩

/-- C3: the retry wrapper fixes its deadline at start time plus the
1-second budget before the first attempt; failed attempts before the
deadline are each reported once to the diagnostic sink and retried; a
failure observed at or past the deadline is propagated verbatim without
being reported. -/
theorem claim_C3_retry (ε α : Type) :
    (∀ (start : ℚ) (fails : List (ε × ℚ)) (v : α) (rest : List (RAttempt ε α)),
      (∀ p ∈ fails, p.2 < start + 1) →
      retryWrapper start (fails.map (fun p => RAttempt.fail p.1 p.2) ++ RAttempt.ok v :: rest)
        = some (Except.ok v, fails.map Prod.fst)) ∧
    (∀ (start : ℚ) (fails : List (ε × ℚ)) (e : ε) (t : ℚ) (rest : List (RAttempt ε α)),
      (∀ p ∈ fails, p.2 < start + 1) → start + 1 ≤ t →
      retryWrapper start (fails.map (fun p => RAttempt.fail p.1 p.2) ++ RAttempt.fail e t :: rest)
        = some (Except.error e, fails.map Prod.fst)) := by
  constructor
  · intro start fails v rest hf
    exact retryRun_ok (start + 1) fails v rest hf
  · intro start fails e t rest hf ht
    exact retryRun_fail (start + 1) fails e t rest hf ht

/-- Witness for C3: two failures inside the budget then a success return
the success with both failures reported; a failure at time 3 past the
deadline is propagated and not reported. -/
theorem claim_C3_witness :
    retryWrapper (0 : ℚ) [RAttempt.fail (7 : Nat) (1 / 10), RAttempt.fail 8 (2 / 10),
      RAttempt.ok (42 : Nat)] = some (Except.ok 42, [7, 8]) ∧
    retryWrapper (0 : ℚ) [RAttempt.fail (7 : Nat) (1 / 10),
      (RAttempt.fail 9 3 : RAttempt Nat Nat)] = some (Except.error 9, [7]) := by
  constructor
  · have h := (claim_C3_retry Nat Nat).1 0 [(7, 1 / 10), (8, 2 / 10)] 42 []
      (by intro p hp; fin_cases hp <;> norm_num)
    simpa using h
  · have h := (claim_C3_retry Nat Nat).2 0 [(7, 1 / 10)] 9 3 []
      (by intro p hp; fin_cases hp <;> norm_num) (by norm_num)
    simpa using h

lemma writesOf_reads (l : List Event) (h : ∀ e ∈ l, ∃ r c, e = Event.readE r c) :
    writesOf l = [] := by
  rw [writesOf, List.filter_eq_nil]
  intro a ha
  obtain ⟨r, c, he⟩ := h a ha
  subst he
  simp [isWriteEvent]

lemma set_position_run (degrees : ℚ) (dps : Option ℚ) (block : Bool) (d : Device) (res : ℚ)
    (d' : Device) (tr : List Event) (h : set_position degrees dps block d = some (res, d', tr)) :
    ∃ d4 tr0 e5, set_position_command degrees dps d = some (res, d4, tr0) ∧ tr = tr0 ++ e5 ∧
      ∀ e ∈ e5, ∃ c, e = Event.readE _PRESENT_POSITION c := by
  cases block with
  | false =>
    rw [set_position_false] at h
    exact ⟨d', tr, [], h, by simp, by simp⟩
  | true =>
    obtain ⟨d4, tr0, rem, e5, hc, hp, hd', htr⟩ :=
      set_position_true_decomp degrees dps d res d' tr h
    obtain ⟨pre, hps, hpre, hevs⟩ := pollPosition_spec _ _ _ _ hp
    refine ⟨d4, tr0, e5, hc, htr, ?_⟩
    intro e he
    rw [hevs] at he
    rcases List.mem_append.1 he with h1 | h1
    · obtain ⟨x, _, hx⟩ := List.mem_map.1 h1
      exact ⟨x, hx.symm⟩
    · rw [List.mem_singleton.1 h1]
      exact ⟨_, rfl⟩

lemma set_velocity_run (dps : ℚ) (block : Bool) (d : Device) (res : ℚ)
    (d' : Device) (tr : List Event) (h : set_velocity dps block d = some (res, d', tr)) :
    ∃ d2 tr0 e5, set_velocity_command dps d = some (res, d2, tr0) ∧ tr = tr0 ++ e5 ∧
      ∀ e ∈ e5, ∃ c, e = Event.readE _PRESENT_VELOCITY c := by
  cases block with
  | false =>
    rw [set_velocity_false] at h
    exact ⟨d', tr, [], h, by simp, by simp⟩
  | true =>
    obtain ⟨d2, tr0, pv, vs, rem, e4, hc, hvs, hp, hd', htr⟩ :=
      set_velocity_true_decomp dps d res d' tr h
    obtain ⟨pre, w, hvs2, hpre, hw, hevs⟩ := pollVelocity_spec _ _ _ _ _ hp
    refine ⟨d2, tr0, [Event.readE _PRESENT_VELOCITY pv] ++ e4, hc, by rw [htr]; simp, ?_⟩
    intro e he
    rcases List.mem_append.1 he with h1 | h1
    · rw [List.mem_singleton.1 h1]
      exact ⟨pv, rfl⟩
    · rw [hevs] at h1
      rcases List.mem_append.1 h1 with h2 | h2
      · obtain ⟨x, _, hx⟩ := List.mem_map.1 h2
        exact ⟨x, hx.symm⟩
      · rw [List.mem_singleton.1 h2]
        exact ⟨w, rfl⟩

lemma som_diff_sublist (mode : _OperatingMode) (d2 d3 : Device) (e3 : List Event)
    (hm : d2.operatingMode ≠ mode.value) (h : set_operating_mode mode d2 = some (d3, e3)) :
    ∃ c1 c2, List.Sublist [Event.writeE _TORQUE_ENABLE 0, Event.readE _CONTROLLER_STATE c1,
      Event.writeE _OPERATING_MODE mode.value, Event.writeE _TORQUE_ENABLE 1,
      Event.readE _CONTROLLER_STATE c2] e3 := by
  obtain ⟨w1, w2, rem, htr, hw1ne, hw2ne, hw1all, hw2all, hd'⟩ := som_diff mode d2 d3 e3 hm h
  cases w1 with
  | nil => exact absurd rfl hw1ne
  | cons a1 w1t =>
    cases w2 with
    | nil => exact absurd rfl hw2ne
    | cons a2 w2t =>
      obtain ⟨c1, hc1⟩ := hw1all a1 (List.mem_cons_self _ _)
      obtain ⟨c2, hc2⟩ := hw2all a2 (List.mem_cons_self _ _)
      subst hc1
      subst hc2
      refine ⟨c1, c2, ?_⟩
      rw [htr]
      simp only [List.cons_append]
      apply List.Sublist.cons
      apply List.Sublist.cons₂
      apply List.Sublist.cons₂
      have hrest : List.Sublist [Event.writeE _OPERATING_MODE mode.value,
          Event.writeE _TORQUE_ENABLE 1, Event.readE _CONTROLLER_STATE c2]
          (Event.writeE _OPERATING_MODE mode.value :: Event.readE _TORQUE_ENABLE 0 ::
            Event.writeE _TORQUE_ENABLE 1 :: Event.readE _CONTROLLER_STATE c2 :: w2t) := by
        apply List.Sublist.cons₂
        apply List.Sublist.cons
        apply List.Sublist.cons₂
        apply List.Sublist.cons₂
        exact List.nil_sublist _
      exact hrest.trans (List.sublist_append_right w1t _)

/-- C2: if the operating mode already equals the requested mode and torque
reads nonzero, set_operating_mode issues zero register writes (two reads
only); if the mode differs, it issues exactly the torque-disable write, the
mode write and the torque-enable write, the latter followed by a nonempty
controller-state settle-poll. -/
theorem claim_C2_ensure_mode :
    (∀ (mode : _OperatingMode) (d : Device),
      d.operatingMode = mode.value → d.torqueEnable ≠ 0 →
      set_operating_mode mode d = some (d,
        [Event.readE _OPERATING_MODE d.operatingMode, Event.readE _TORQUE_ENABLE d.torqueEnable]) ∧
      writesOf [Event.readE _OPERATING_MODE d.operatingMode,
        Event.readE _TORQUE_ENABLE d.torqueEnable] = []) ∧
    (∀ (mode : _OperatingMode) (d d' : Device) (tr : List Event),
      set_operating_mode mode d = some (d', tr) → d.operatingMode ≠ mode.value →
      writesOf tr = [Event.writeE _TORQUE_ENABLE 0, Event.writeE _OPERATING_MODE mode.value,
        Event.writeE _TORQUE_ENABLE 1] ∧
      ∃ w1 w2, tr = Event.readE _OPERATING_MODE d.operatingMode ::
          Event.writeE _TORQUE_ENABLE 0 ::
          (w1 ++ Event.writeE _OPERATING_MODE mode.value :: Event.readE _TORQUE_ENABLE 0 ::
            Event.writeE _TORQUE_ENABLE 1 :: w2) ∧
        w2 ≠ [] ∧ (∀ e ∈ w1, ∃ c, e = Event.readE _CONTROLLER_STATE c) ∧
        (∀ e ∈ w2, ∃ c, e = Event.readE _CONTROLLER_STATE c)) := by
  constructor
  · intro mode d hm ht
    exact ⟨som_same_on mode d hm ht, by simp [writesOf, isWriteEvent]⟩
  · intro mode d d' tr h hm
    obtain ⟨w1, w2, rem, htr, hw1ne, hw2ne, hw1all, hw2all, hd'⟩ := som_diff mode d d' tr hm h
    have hw1w := writesOf_reads w1 (csReads_are_reads hw1all)
    have hw2w := writesOf_reads w2 (csReads_are_reads hw2all)
    rw [writesOf] at hw1w hw2w
    constructor
    · rw [htr]
      simp [writesOf, isWriteEvent, List.filter_append, hw1w, hw2w]
    · exact ⟨w1, w2, htr, hw2ne, hw1all, hw2all⟩

def dGoodA : Device :=
  { operatingMode := 3, torqueEnable := 1, profileVelocity := 0, velocityLimit := 1000,
    goalPosition := 0, goalVelocity := 0, controllerStates := [],
    presentPositions := [], presentVelocities := [] }

def dGoodB : Device :=
  { operatingMode := 1, torqueEnable := 1, profileVelocity := 0, velocityLimit := 1000,
    goalPosition := 0, goalVelocity := 0, controllerStates := [0, 0],
    presentPositions := [], presentVelocities := [] }

/-- Witness for C2: a device already in position mode with torque on gets
zero writes; a device in velocity mode asked for position mode gets the
full disable-write-enable sequence. -/
theorem claim_C2_witness :
    (set_operating_mode _OperatingMode.POSITION dGoodA = some (dGoodA,
        [Event.readE _OPERATING_MODE dGoodA.operatingMode,
         Event.readE _TORQUE_ENABLE dGoodA.torqueEnable]) ∧
      writesOf [Event.readE _OPERATING_MODE dGoodA.operatingMode,
        Event.readE _TORQUE_ENABLE dGoodA.torqueEnable] = []) ∧
    (writesOf [Event.readE _OPERATING_MODE 1, Event.writeE _TORQUE_ENABLE 0,
        Event.readE _CONTROLLER_STATE 0, Event.writeE _OPERATING_MODE 3,
        Event.readE _TORQUE_ENABLE 0, Event.writeE _TORQUE_ENABLE 1,
        Event.readE _CONTROLLER_STATE 0] =
      [Event.writeE _TORQUE_ENABLE 0, Event.writeE _OPERATING_MODE _OperatingMode.POSITION.value,
        Event.writeE _TORQUE_ENABLE 1] ∧
      ∃ w1 w2, [Event.readE _OPERATING_MODE 1, Event.writeE _TORQUE_ENABLE 0,
          Event.readE _CONTROLLER_STATE 0, Event.writeE _OPERATING_MODE 3,
          Event.readE _TORQUE_ENABLE 0, Event.writeE _TORQUE_ENABLE 1,
          Event.readE _CONTROLLER_STATE 0] =
          Event.readE _OPERATING_MODE dGoodB.operatingMode :: Event.writeE _TORQUE_ENABLE 0 ::
          (w1 ++ Event.writeE _OPERATING_MODE _OperatingMode.POSITION.value ::
            Event.readE _TORQUE_ENABLE 0 :: Event.writeE _TORQUE_ENABLE 1 :: w2) ∧
        w2 ≠ [] ∧ (∀ e ∈ w1, ∃ c, e = Event.readE _CONTROLLER_STATE c) ∧
        (∀ e ∈ w2, ∃ c, e = Event.readE _CONTROLLER_STATE c)) :=
  ⟨claim_C2_ensure_mode.1 _OperatingMode.POSITION dGoodA rfl (by decide),
    claim_C2_ensure_mode.2 _OperatingMode.POSITION dGoodB
      { operatingMode := 3, torqueEnable := 1, profileVelocity := 0, velocityLimit := 1000,
        goalPosition := 0, goalVelocity := 0, controllerStates := [],
        presentPositions := [], presentVelocities := [] }
      [Event.readE _OPERATING_MODE 1, Event.writeE _TORQUE_ENABLE 0,
        Event.readE _CONTROLLER_STATE 0, Event.writeE _OPERATING_MODE 3,
        Event.readE _TORQUE_ENABLE 0, Event.writeE _TORQUE_ENABLE 1,
        Event.readE _CONTROLLER_STATE 0] (by decide) (by decide)⟩

lemma set_position_command_safety (degrees : ℚ) (dps : Option ℚ) (d : Device) (res : ℚ)
    (d4 : Device) (tr0 : List Event)
    (h : set_position_command degrees dps d = some (res, d4, tr0)) :
    modeWritesSafe d.torqueEnable tr0 = true ∧ goalWritesTorqued d.torqueEnable tr0 = true ∧
    teAfter d.torqueEnable tr0 = d4.torqueEnable ∧ d4.torqueEnable ≠ 0 := by
  obtain ⟨hres, d2, e12, d3, e3, hps, hsom, hd4, htr0⟩ :=
    set_position_command_spec _ _ _ _ _ _ h
  obtain ⟨hm12, hg12, hte12, hOM2, hTE2, _, _, _, _, _, _⟩ :=
    profile_step_general dps d d2 e12 d.torqueEnable hps
  obtain ⟨hm3, hg3, hte3, hTE3, hOM3, _, _, _, _, _, _⟩ := som_general _ d2 d3 e3 hsom
  rw [hTE2] at hm3 hg3 hte3
  subst htr0
  have hd4te : d4.torqueEnable = d3.torqueEnable := by rw [hd4]
  refine ⟨?_, ?_, ?_, ?_⟩
  · rw [modeWritesSafe_append, modeWritesSafe_append, teAfter_append, hm12, hte12, hm3, hte3]
    simp [modeWritesSafe, _GOAL_POSITION, _TORQUE_ENABLE, _OPERATING_MODE]
  · rw [goalWritesTorqued_append, goalWritesTorqued_append, teAfter_append, hg12, hte12, hg3,
      hte3]
    simp [goalWritesTorqued, _GOAL_POSITION, _TORQUE_ENABLE, _OPERATING_MODE, _GOAL_VELOCITY,
      hTE3]
  · rw [teAfter_append, teAfter_append, hte12, hte3, hd4te]
    simp [teAfter, _GOAL_POSITION, _TORQUE_ENABLE]
  · rw [hd4te]
    exact hTE3

lemma set_velocity_command_safety (dps : ℚ) (d : Device) (res : ℚ) (d2 : Device)
    (tr0 : List Event) (h : set_velocity_command dps d = some (res, d2, tr0)) :
    modeWritesSafe d.torqueEnable tr0 = true ∧ goalWritesTorqued d.torqueEnable tr0 = true ∧
    teAfter d.torqueEnable tr0 = d2.torqueEnable ∧ d2.torqueEnable ≠ 0 := by
  obtain ⟨hres, d1, e1, hsom, hd2, htr0⟩ := set_velocity_command_spec _ _ _ _ _ h
  obtain ⟨hm1, hg1, hte1, hTE1, hOM1, _, _, _, _, _, _⟩ := som_general _ d d1 e1 hsom
  subst htr0
  have hd2te : d2.torqueEnable = d1.torqueEnable := by rw [hd2]
  refine ⟨?_, ?_, ?_, ?_⟩
  · rw [modeWritesSafe_append, hm1, hte1]
    simp [modeWritesSafe, _GOAL_VELOCITY, _TORQUE_ENABLE, _OPERATING_MODE]
  · rw [goalWritesTorqued_append, hg1, hte1]
    simp [goalWritesTorqued, _GOAL_VELOCITY, _TORQUE_ENABLE, _OPERATING_MODE, _GOAL_POSITION,
      hTE1]
  · rw [teAfter_append, hte1, hd2te]
    simp [teAfter, _GOAL_VELOCITY, _TORQUE_ENABLE]
  · rw [hd2te]
    exact hTE1

/-- C1: in every completed set_position or set_velocity call, the
operating-mode register is never written while the torque-enable value is
nonzero, every goal write happens with torque enabled, and when the initial
mode differs from the requested one the trace contains, in order, the
torque-disable write, a controller-state settle read, the mode write, the
torque-enable write, a settle read, and only then the goal write. -/
theorem claim_C1_mode_torque_ordering :
    (∀ (degrees : ℚ) (dps : Option ℚ) (block : Bool) (d : Device) (res : ℚ) (d' : Device)
      (tr : List Event), set_position degrees dps block d = some (res, d', tr) →
      modeWritesSafe d.torqueEnable tr = true ∧ goalWritesTorqued d.torqueEnable tr = true) ∧
    (∀ (degrees : ℚ) (dps : Option ℚ) (block : Bool) (d : Device) (res : ℚ) (d' : Device)
      (tr : List Event), set_position degrees dps block d = some (res, d', tr) →
      d.operatingMode ≠ _OperatingMode.POSITION.value →
      ∃ c1 c2, List.Sublist [Event.writeE _TORQUE_ENABLE 0, Event.readE _CONTROLLER_STATE c1,
        Event.writeE _OPERATING_MODE _OperatingMode.POSITION.value,
        Event.writeE _TORQUE_ENABLE 1, Event.readE _CONTROLLER_STATE c2,
        Event.writeE _GOAL_POSITION (pyRound (degrees * PULSES_PER_DEGREE))] tr) ∧
    (∀ (dps : ℚ) (block : Bool) (d : Device) (res : ℚ) (d' : Device) (tr : List Event),
      set_velocity dps block d = some (res, d', tr) →
      modeWritesSafe d.torqueEnable tr = true ∧ goalWritesTorqued d.torqueEnable tr = true) ∧
    (∀ (dps : ℚ) (block : Bool) (d : Device) (res : ℚ) (d' : Device) (tr : List Event),
      set_velocity dps block d = some (res, d', tr) →
      d.operatingMode ≠ _OperatingMode.VELOCITY.value →
      ∃ c1 c2, List.Sublist [Event.writeE _TORQUE_ENABLE 0, Event.readE _CONTROLLER_STATE c1,
        Event.writeE _OPERATING_MODE _OperatingMode.VELOCITY.value,
        Event.writeE _TORQUE_ENABLE 1, Event.readE _CONTROLLER_STATE c2,
        Event.writeE _GOAL_VELOCITY (pyRound (dps * CRPMS_PER_DEGREES_PER_SECOND))] tr) := by
  refine ⟨?_, ?_, ?_, ?_⟩
  · intro degrees dps block d res d' tr h
    obtain ⟨d4, tr0, e5, hc, htr, he5⟩ := set_position_run degrees dps block d res d' tr h
    obtain ⟨hm0, hg0, hte0, _⟩ := set_position_command_safety degrees dps d res d4 tr0 hc
    have he5r : ∀ e ∈ e5, ∃ r c, e = Event.readE r c := by
      intro e he
      obtain ⟨c, hcc⟩ := he5 e he
      exact ⟨_, c, hcc⟩
    subst htr
    constructor
    · rw [modeWritesSafe_append, hm0, hte0]
      simp [modeWritesSafe_reads e5 _ he5r]
    · rw [goalWritesTorqued_append, hg0, hte0]
      simp [goalWritesTorqued_reads e5 _ he5r]
  · intro degrees dps block d res d' tr h hm
    obtain ⟨d4, tr0, e5, hc, htr, he5⟩ := set_position_run degrees dps block d res d' tr h
    obtain ⟨hres, d2, e12, d3, e3, hps, hsom, hd4, htr0⟩ :=
      set_position_command_spec _ _ _ _ _ _ hc
    obtain ⟨_, _, _, hOM2, _, _, _, _, _, _, _⟩ :=
      profile_step_general dps d d2 e12 d.torqueEnable hps
    have hm2 : d2.operatingMode ≠ _OperatingMode.POSITION.value := by rw [hOM2]; exact hm
    obtain ⟨c1, c2, h5⟩ := som_diff_sublist _OperatingMode.POSITION d2 d3 e3 hm2 hsom
    refine ⟨c1, c2, ?_⟩
    subst htr htr0
    have h6 := h5.append (List.Sublist.refl
      [Event.writeE _GOAL_POSITION (pyRound (degrees * PULSES_PER_DEGREE))])
    have h7 := h6.trans (List.sublist_append_right e12
      (e3 ++ [Event.writeE _GOAL_POSITION (pyRound (degrees * PULSES_PER_DEGREE))]))
    rw [← List.append_assoc] at h7
    exact h7.trans (List.sublist_append_left _ e5)
  · intro dps block d res d' tr h
    obtain ⟨d2, tr0, e5, hc, htr, he5⟩ := set_velocity_run dps block d res d' tr h
    obtain ⟨hm0, hg0, hte0, _⟩ := set_velocity_command_safety dps d res d2 tr0 hc
    have he5r : ∀ e ∈ e5, ∃ r c, e = Event.readE r c := by
      intro e he
      obtain ⟨c, hcc⟩ := he5 e he
      exact ⟨_, c, hcc⟩
    subst htr
    constructor
    · rw [modeWritesSafe_append, hm0, hte0]
      simp [modeWritesSafe_reads e5 _ he5r]
    · rw [goalWritesTorqued_append, hg0, hte0]
      simp [goalWritesTorqued_reads e5 _ he5r]
  · intro dps block d res d' tr h hm
    obtain ⟨d2, tr0, e5, hc, htr, he5⟩ := set_velocity_run dps block d res d' tr h
    obtain ⟨hres, d1, e1, hsom, hd2, htr0⟩ := set_velocity_command_spec _ _ _ _ _ hc
    obtain ⟨c1, c2, h5⟩ := som_diff_sublist _OperatingMode.VELOCITY d d1 e1 hm hsom
    refine ⟨c1, c2, ?_⟩
    subst htr htr0
    have h6 := h5.append (List.Sublist.refl
      [Event.writeE _GOAL_VELOCITY (pyRound (dps * CRPMS_PER_DEGREES_PER_SECOND))])
    exact h6.trans (List.sublist_append_left _ e5)

def dGoodD : Device :=
  { operatingMode := 3, torqueEnable := 1, profileVelocity := 0, velocityLimit := 1000,
    goalPosition := 0, goalVelocity := 0, controllerStates := [0, 0],
    presentPositions := [], presentVelocities := [] }

lemma run_pos_same : set_position 0 none false dGoodA =
    some (0, { dGoodA with profileVelocity := 1000 },
      [Event.readE _VELCOITY_LIMIT 1000, Event.writeE _PROFILE_VELCOITY 1000,
       Event.readE _OPERATING_MODE 3, Event.readE _TORQUE_ENABLE 1,
       Event.writeE _GOAL_POSITION 0]) := by
  have hpr : pyRound (0 : ℚ) = 0 := by norm_num [pyRound]
  have hr0 : ((0 : ℤ) : ℚ) / PULSES_PER_DEGREE = 0 := by norm_num [PULSES_PER_DEGREE]
  simp [set_position, set_position_command, profile_step, set_operating_mode, torque_enable,
    torque_disable, wait_for_processing_torque, waitLoop, readR, writeR, devRead, devWrite,
    dGoodA, hpr, hr0, _VELCOITY_LIMIT, _PROFILE_VELCOITY, _OPERATING_MODE, _TORQUE_ENABLE,
    _GOAL_POSITION, _PRESENT_POSITION, _PRESENT_VELOCITY, _CONTROLLER_STATE, _GOAL_VELOCITY,
    _OperatingMode.value, PROCESSING_TORQUE_ON, PROCESSING_TORQUE_OFF]

def dAfterPosDiff : Device :=
  { operatingMode := 3, torqueEnable := 1, profileVelocity := 1000, velocityLimit := 1000,
    goalPosition := 0, goalVelocity := 0, controllerStates := [],
    presentPositions := [], presentVelocities := [] }

def dAfterVelDiff : Device :=
  { operatingMode := 1, torqueEnable := 1, profileVelocity := 0, velocityLimit := 1000,
    goalPosition := 0, goalVelocity := 0, controllerStates := [],
    presentPositions := [], presentVelocities := [] }

lemma run_pos_diff : set_position 0 none false dGoodB =
    some (0, dAfterPosDiff,
      [Event.readE _VELCOITY_LIMIT 1000, Event.writeE _PROFILE_VELCOITY 1000,
       Event.readE _OPERATING_MODE 1, Event.writeE _TORQUE_ENABLE 0,
       Event.readE _CONTROLLER_STATE 0, Event.writeE _OPERATING_MODE 3,
       Event.readE _TORQUE_ENABLE 0, Event.writeE _TORQUE_ENABLE 1,
       Event.readE _CONTROLLER_STATE 0, Event.writeE _GOAL_POSITION 0]) := by
  have hpr : pyRound (0 : ℚ) = 0 := by norm_num [pyRound]
  have hr0 : ((0 : ℤ) : ℚ) / PULSES_PER_DEGREE = 0 := by norm_num [PULSES_PER_DEGREE]
  simp [set_position, set_position_command, profile_step, set_operating_mode, torque_enable,
    torque_disable, wait_for_processing_torque, waitLoop, readR, writeR, devRead, devWrite,
    dGoodB, dAfterPosDiff, hpr, hr0, _VELCOITY_LIMIT, _PROFILE_VELCOITY, _OPERATING_MODE, _TORQUE_ENABLE,
    _GOAL_POSITION, _PRESENT_POSITION, _PRESENT_VELOCITY, _CONTROLLER_STATE, _GOAL_VELOCITY,
    _OperatingMode.value, PROCESSING_TORQUE_ON, PROCESSING_TORQUE_OFF]

lemma run_vel_same : set_velocity 0 false dGoodB =
    some (0, dGoodB, [Event.readE _OPERATING_MODE 1, Event.readE _TORQUE_ENABLE 1,
      Event.writeE _GOAL_VELOCITY 0]) := by
  have hpr : pyRound (0 : ℚ) = 0 := by norm_num [pyRound]
  have hr0 : ((0 : ℤ) : ℚ) / CRPMS_PER_DEGREES_PER_SECOND = 0 := by
    norm_num [CRPMS_PER_DEGREES_PER_SECOND]
  simp [set_velocity, set_velocity_command, set_operating_mode, torque_enable,
    torque_disable, wait_for_processing_torque, waitLoop, readR, writeR, devRead, devWrite,
    dGoodB, hpr, hr0, _VELCOITY_LIMIT, _PROFILE_VELCOITY, _OPERATING_MODE, _TORQUE_ENABLE,
    _GOAL_POSITION, _PRESENT_POSITION, _PRESENT_VELOCITY, _CONTROLLER_STATE, _GOAL_VELOCITY,
    _OperatingMode.value, PROCESSING_TORQUE_ON, PROCESSING_TORQUE_OFF]

lemma run_vel_diff : set_velocity 0 false dGoodD =
    some (0, dAfterVelDiff,
      [Event.readE _OPERATING_MODE 3, Event.writeE _TORQUE_ENABLE 0,
       Event.readE _CONTROLLER_STATE 0, Event.writeE _OPERATING_MODE 1,
       Event.readE _TORQUE_ENABLE 0, Event.writeE _TORQUE_ENABLE 1,
       Event.readE _CONTROLLER_STATE 0, Event.writeE _GOAL_VELOCITY 0]) := by
  have hpr : pyRound (0 : ℚ) = 0 := by norm_num [pyRound]
  have hr0 : ((0 : ℤ) : ℚ) / CRPMS_PER_DEGREES_PER_SECOND = 0 := by
    norm_num [CRPMS_PER_DEGREES_PER_SECOND]
  simp [set_velocity, set_velocity_command, set_operating_mode, torque_enable,
    torque_disable, wait_for_processing_torque, waitLoop, readR, writeR, devRead, devWrite,
    dGoodD, dAfterVelDiff, hpr, hr0, _VELCOITY_LIMIT, _PROFILE_VELCOITY, _OPERATING_MODE, _TORQUE_ENABLE,
    _GOAL_POSITION, _PRESENT_POSITION, _PRESENT_VELOCITY, _CONTROLLER_STATE, _GOAL_VELOCITY,
    _OperatingMode.value, PROCESSING_TORQUE_ON, PROCESSING_TORQUE_OFF]

/-- Witness for C1: concrete runs of set_position and set_velocity in both
the mode-equal and the mode-differs cases, with the safety scans and the
ordered write sequence instantiated. -/
theorem claim_C1_witness :
    (modeWritesSafe dGoodA.torqueEnable
        [Event.readE _VELCOITY_LIMIT 1000, Event.writeE _PROFILE_VELCOITY 1000,
         Event.readE _OPERATING_MODE 3, Event.readE _TORQUE_ENABLE 1,
         Event.writeE _GOAL_POSITION 0] = true ∧
      goalWritesTorqued dGoodA.torqueEnable
        [Event.readE _VELCOITY_LIMIT 1000, Event.writeE _PROFILE_VELCOITY 1000,
         Event.readE _OPERATING_MODE 3, Event.readE _TORQUE_ENABLE 1,
         Event.writeE _GOAL_POSITION 0] = true) ∧
    (∃ c1 c2, List.Sublist [Event.writeE _TORQUE_ENABLE 0, Event.readE _CONTROLLER_STATE c1,
        Event.writeE _OPERATING_MODE _OperatingMode.POSITION.value,
        Event.writeE _TORQUE_ENABLE 1, Event.readE _CONTROLLER_STATE c2,
        Event.writeE _GOAL_POSITION (pyRound (0 * PULSES_PER_DEGREE))]
        [Event.readE _VELCOITY_LIMIT 1000, Event.writeE _PROFILE_VELCOITY 1000,
         Event.readE _OPERATING_MODE 1, Event.writeE _TORQUE_ENABLE 0,
         Event.readE _CONTROLLER_STATE 0, Event.writeE _OPERATING_MODE 3,
         Event.readE _TORQUE_ENABLE 0, Event.writeE _TORQUE_ENABLE 1,
         Event.readE _CONTROLLER_STATE 0, Event.writeE _GOAL_POSITION 0]) ∧
    (modeWritesSafe dGoodB.torqueEnable
        [Event.readE _OPERATING_MODE 1, Event.readE _TORQUE_ENABLE 1,
         Event.writeE _GOAL_VELOCITY 0] = true ∧
      goalWritesTorqued dGoodB.torqueEnable
        [Event.readE _OPERATING_MODE 1, Event.readE _TORQUE_ENABLE 1,
         Event.writeE _GOAL_VELOCITY 0] = true) ∧
    (∃ c1 c2, List.Sublist [Event.writeE _TORQUE_ENABLE 0, Event.readE _CONTROLLER_STATE c1,
        Event.writeE _OPERATING_MODE _OperatingMode.VELOCITY.value,
        Event.writeE _TORQUE_ENABLE 1, Event.readE _CONTROLLER_STATE c2,
        Event.writeE _GOAL_VELOCITY (pyRound (0 * CRPMS_PER_DEGREES_PER_SECOND))]
        [Event.readE _OPERATING_MODE 3, Event.writeE _TORQUE_ENABLE 0,
         Event.readE _CONTROLLER_STATE 0, Event.writeE _OPERATING_MODE 1,
         Event.readE _TORQUE_ENABLE 0, Event.writeE _TORQUE_ENABLE 1,
         Event.readE _CONTROLLER_STATE 0, Event.writeE _GOAL_VELOCITY 0]) :=
  ⟨claim_C1_mode_torque_ordering.1 0 none false dGoodA 0 _ _ run_pos_same,
   claim_C1_mode_torque_ordering.2.1 0 none false dGoodB 0 _ _ run_pos_diff (by decide),
   claim_C1_mode_torque_ordering.2.2.1 0 false dGoodB 0 _ _ run_vel_same,
   claim_C1_mode_torque_ordering.2.2.2 0 false dGoodD 0 _ _ run_vel_diff (by decide)⟩

/-- C5: a blocking set_position terminates exactly on the first
present-position read equal to the integer goal pulses - every earlier
consumed read differs from the goal - and returns the realized degrees,
goal divided by the pulses-per-degree factor. -/
theorem claim_C5_position_blocking :
    ∀ (degrees : ℚ) (dps : Option ℚ) (d : Device) (res : ℚ) (d' : Device) (tr : List Event),
      set_position degrees dps true d = some (res, d', tr) →
      res = (pyRound (degrees * PULSES_PER_DEGREE) : ℚ) / PULSES_PER_DEGREE ∧
      ∃ d0 tr0 pre,
        set_position degrees dps false d = some (res, d0, tr0) ∧
        d0.presentPositions =
          pre ++ pyRound (degrees * PULSES_PER_DEGREE) :: d'.presentPositions ∧
        (∀ v ∈ pre, v ≠ pyRound (degrees * PULSES_PER_DEGREE)) ∧
        tr = tr0 ++ (pre.map (Event.readE _PRESENT_POSITION) ++
          [Event.readE _PRESENT_POSITION (pyRound (degrees * PULSES_PER_DEGREE))]) := by
  intro degrees dps d res d' tr h
  obtain ⟨d4, tr0, rem, e5, hc, hp, hd', htr⟩ := set_position_true_decomp degrees dps d res d' tr h
  obtain ⟨hres, _⟩ := set_position_command_spec _ _ _ _ _ _ hc
  obtain ⟨pre, hps, hpre, hevs⟩ := pollPosition_spec _ _ _ _ hp
  refine ⟨hres, d4, tr0, pre, ?_, ?_, hpre, ?_⟩
  · rw [set_position_false]
    exact hc
  · rw [hd']
    simpa using hps
  · rw [htr, hevs]

def dPosW : Device :=
  { operatingMode := 3, torqueEnable := 1, profileVelocity := 0, velocityLimit := 1000,
    goalPosition := 0, goalVelocity := 0, controllerStates := [],
    presentPositions := [0, 131072], presentVelocities := [] }

def dPosWAfter : Device :=
  { operatingMode := 3, torqueEnable := 1, profileVelocity := 1000, velocityLimit := 1000,
    goalPosition := 131072, goalVelocity := 0, controllerStates := [],
    presentPositions := [], presentVelocities := [] }

def trPosBlock : List Event :=
  [Event.readE _VELCOITY_LIMIT 1000, Event.writeE _PROFILE_VELCOITY 1000,
   Event.readE _OPERATING_MODE 3, Event.readE _TORQUE_ENABLE 1,
   Event.writeE _GOAL_POSITION 131072,
   Event.readE _PRESENT_POSITION 0, Event.readE _PRESENT_POSITION 131072]

lemma run_pos_block : set_position 90 none true dPosW = some (90, dPosWAfter, trPosBlock) := by
  have h1 : pyRound ((90 : ℚ) * PULSES_PER_DEGREE) = 131072 := by
    norm_num [pyRound, PULSES_PER_DEGREE]
  have h2 : (131072 : ℚ) / PULSES_PER_DEGREE = 90 := by
    norm_num [PULSES_PER_DEGREE]
  simp [set_position, set_position_command, profile_step, set_operating_mode, torque_enable,
    torque_disable, wait_for_processing_torque, waitLoop, readR, writeR, devRead, devWrite,
    pollPosition, dPosW, dPosWAfter, trPosBlock, h1, h2, _VELCOITY_LIMIT, _PROFILE_VELCOITY,
    _OPERATING_MODE, _TORQUE_ENABLE, _GOAL_POSITION, _PRESENT_POSITION, _PRESENT_VELOCITY,
    _CONTROLLER_STATE, _GOAL_VELOCITY, _OperatingMode.value, PROCESSING_TORQUE_ON,
    PROCESSING_TORQUE_OFF]

/-- Witness for C5: a blocking set_position to 90 degrees whose
present-position reads return 0 then the goal 131072. -/
theorem claim_C5_witness :
    (90 : ℚ) = (pyRound ((90 : ℚ) * PULSES_PER_DEGREE) : ℚ) / PULSES_PER_DEGREE ∧
    ∃ d0 tr0 pre,
      set_position 90 none false dPosW = some (90, d0, tr0) ∧
      d0.presentPositions =
        pre ++ pyRound ((90 : ℚ) * PULSES_PER_DEGREE) :: dPosWAfter.presentPositions ∧
      (∀ v ∈ pre, v ≠ pyRound ((90 : ℚ) * PULSES_PER_DEGREE)) ∧
      trPosBlock = tr0 ++ (pre.map (Event.readE _PRESENT_POSITION) ++
        [Event.readE _PRESENT_POSITION (pyRound ((90 : ℚ) * PULSES_PER_DEGREE))]) :=
  claim_C5_position_blocking 90 none dPosW 90 dPosWAfter trPosBlock run_pos_block

/-- C6: a blocking set_velocity takes exactly one present-velocity read
after the goal write to fix the direction; if the integer goal is strictly
above that pre-read value the poll exits on the first read at or above the
goal, otherwise on the first read at or below it; the returned value is the
realized rate. -/
theorem claim_C6_velocity_blocking :
    ∀ (dps : ℚ) (d : Device) (res : ℚ) (d' : Device) (tr : List Event),
      set_velocity dps true d = some (res, d', tr) →
      res = (pyRound (dps * CRPMS_PER_DEGREES_PER_SECOND) : ℚ) / CRPMS_PER_DEGREES_PER_SECOND ∧
      ∃ d0 tr0 pv pre w,
        set_velocity dps false d = some (res, d0, tr0) ∧
        d0.presentVelocities = pv :: (pre ++ w :: d'.presentVelocities) ∧
        (∀ v ∈ pre,
          velExit (decide (pv < pyRound (dps * CRPMS_PER_DEGREES_PER_SECOND)))
            (pyRound (dps * CRPMS_PER_DEGREES_PER_SECOND)) v = false) ∧
        velExit (decide (pv < pyRound (dps * CRPMS_PER_DEGREES_PER_SECOND)))
          (pyRound (dps * CRPMS_PER_DEGREES_PER_SECOND)) w = true ∧
        tr = tr0 ++ (Event.readE _PRESENT_VELOCITY pv ::
          (pre.map (Event.readE _PRESENT_VELOCITY) ++ [Event.readE _PRESENT_VELOCITY w])) := by
  intro dps d res d' tr h
  obtain ⟨d2, tr0, pv, vs, rem, e4, hc, hvs, hp, hd', htr⟩ :=
    set_velocity_true_decomp dps d res d' tr h
  obtain ⟨hres, _⟩ := set_velocity_command_spec _ _ _ _ _ hc
  obtain ⟨pre, w, hvs2, hpre, hw, hevs⟩ := pollVelocity_spec _ _ _ _ _ hp
  refine ⟨hres, d2, tr0, pv, pre, w, ?_, ?_, hpre, hw, ?_⟩
  · rw [set_velocity_false]
    exact hc
  · rw [hvs, hvs2, hd']
  · rw [htr, hevs]
    simp

def dVelW : Device :=
  { operatingMode := 1, torqueEnable := 1, profileVelocity := 0, velocityLimit := 1000,
    goalPosition := 0, goalVelocity := 0, controllerStates := [],
    presentPositions := [], presentVelocities := [0, 1000, 3000] }

def dVelWAfter : Device :=
  { operatingMode := 1, torqueEnable := 1, profileVelocity := 0, velocityLimit := 1000,
    goalPosition := 0, goalVelocity := 3000, controllerStates := [],
    presentPositions := [], presentVelocities := [] }

def trVelBlock : List Event :=
  [Event.readE _OPERATING_MODE 1, Event.readE _TORQUE_ENABLE 1,
   Event.writeE _GOAL_VELOCITY 3000,
   Event.readE _PRESENT_VELOCITY 0, Event.readE _PRESENT_VELOCITY 1000,
   Event.readE _PRESENT_VELOCITY 3000]

lemma run_vel_block : set_velocity 180 true dVelW = some (180, dVelWAfter, trVelBlock) := by
  have h1 : pyRound ((180 : ℚ) * CRPMS_PER_DEGREES_PER_SECOND) = 3000 := by
    norm_num [pyRound, CRPMS_PER_DEGREES_PER_SECOND]
  have h2 : (3000 : ℚ) / CRPMS_PER_DEGREES_PER_SECOND = 180 := by
    norm_num [CRPMS_PER_DEGREES_PER_SECOND]
  simp [set_velocity, set_velocity_command, set_operating_mode, torque_enable,
    torque_disable, wait_for_processing_torque, waitLoop, readR, writeR, devRead, devWrite,
    pollVelocity, velExit, dVelW, dVelWAfter, trVelBlock, h1, h2, _VELCOITY_LIMIT,
    _PROFILE_VELCOITY, _OPERATING_MODE, _TORQUE_ENABLE, _GOAL_POSITION, _PRESENT_POSITION,
    _PRESENT_VELOCITY, _CONTROLLER_STATE, _GOAL_VELOCITY, _OperatingMode.value,
    PROCESSING_TORQUE_ON, PROCESSING_TORQUE_OFF]

/-- Witness for C6: a blocking set_velocity to 180 deg/s with pre-read 0
and subsequent reads 1000 then 3000, exiting on the first read at the
goal. -/
theorem claim_C6_witness :
    (180 : ℚ) =
      (pyRound ((180 : ℚ) * CRPMS_PER_DEGREES_PER_SECOND) : ℚ) / CRPMS_PER_DEGREES_PER_SECOND ∧
    ∃ d0 tr0 pv pre w,
      set_velocity 180 false dVelW = some (180, d0, tr0) ∧
      d0.presentVelocities = pv :: (pre ++ w :: dVelWAfter.presentVelocities) ∧
      (∀ v ∈ pre,
        velExit (decide (pv < pyRound ((180 : ℚ) * CRPMS_PER_DEGREES_PER_SECOND)))
          (pyRound ((180 : ℚ) * CRPMS_PER_DEGREES_PER_SECOND)) v = false) ∧
      velExit (decide (pv < pyRound ((180 : ℚ) * CRPMS_PER_DEGREES_PER_SECOND)))
        (pyRound ((180 : ℚ) * CRPMS_PER_DEGREES_PER_SECOND)) w = true ∧
      trVelBlock = tr0 ++ (Event.readE _PRESENT_VELOCITY pv ::
        (pre.map (Event.readE _PRESENT_VELOCITY) ++ [Event.readE _PRESENT_VELOCITY w])) :=
  claim_C6_velocity_blocking 180 dVelW 180 dVelWAfter trVelBlock run_vel_block

lemma run_pos_zero : set_position 0 (some 0) false dGoodA =
    some (0, { dGoodA with profileVelocity := 1000 },
      [Event.readE _VELCOITY_LIMIT 1000, Event.writeE _PROFILE_VELCOITY 1000,
       Event.readE _OPERATING_MODE 3, Event.readE _TORQUE_ENABLE 1,
       Event.writeE _GOAL_POSITION 0]) := by
  have hpr : pyRound (0 : ℚ) = 0 := by norm_num [pyRound]
  have hr0 : ((0 : ℤ) : ℚ) / PULSES_PER_DEGREE = 0 := by norm_num [PULSES_PER_DEGREE]
  simp [set_position, set_position_command, profile_step, set_operating_mode, torque_enable,
    torque_disable, wait_for_processing_torque, waitLoop, readR, writeR, devRead, devWrite,
    dGoodA, hpr, hr0, _VELCOITY_LIMIT, _PROFILE_VELCOITY, _OPERATING_MODE, _TORQUE_ENABLE,
    _GOAL_POSITION, _PRESENT_POSITION, _PRESENT_VELOCITY, _CONTROLLER_STATE, _GOAL_VELOCITY,
    _OperatingMode.value, PROCESSING_TORQUE_ON, PROCESSING_TORQUE_OFF]

/-- C7 counterexample: set_position with a velocity limit argument equal to
0 does NOT write profile-velocity with round(abs(0) * (1/0.06)) = 0; it
writes the velocity-limit register value 1000 instead, because the source
tests the argument for truthiness. -/
theorem claim_C7_counterexample :
    set_position 0 (some 0) false dGoodA =
      some (0, { dGoodA with profileVelocity := 1000 },
        [Event.readE _VELCOITY_LIMIT 1000, Event.writeE _PROFILE_VELCOITY 1000,
         Event.readE _OPERATING_MODE 3, Event.readE _TORQUE_ENABLE 1,
         Event.writeE _GOAL_POSITION 0]) ∧
    Event.writeE _PROFILE_VELCOITY (pyRound (|(0 : ℚ)| * CRPMS_PER_DEGREES_PER_SECOND)) ∉
      [Event.readE _VELCOITY_LIMIT 1000, Event.writeE _PROFILE_VELCOITY 1000,
       Event.readE _OPERATING_MODE 3, Event.readE _TORQUE_ENABLE 1,
       Event.writeE _GOAL_POSITION 0] := by
  have hpr : pyRound (|(0 : ℚ)| * CRPMS_PER_DEGREES_PER_SECOND) = 0 := by
    norm_num [pyRound]
  refine ⟨run_pos_zero, ?_⟩
  rw [hpr]
  decide

/-- C7 (amended): whenever a nonzero velocity limit argument is given, the
profile-velocity register is written with round(abs(dps) * (1/0.06)); when
the argument is absent or zero, the profile-velocity register is written
with the value read from the velocity-limit register. -/
theorem claim_C7_amended :
    (∀ (degrees dps : ℚ) (block : Bool) (d : Device) (res : ℚ) (d' : Device) (tr : List Event),
      dps ≠ 0 → set_position degrees (some dps) block d = some (res, d', tr) →
      ∃ rest, tr = Event.writeE _PROFILE_VELCOITY
        (pyRound (|dps| * CRPMS_PER_DEGREES_PER_SECOND)) :: rest) ∧
    (∀ (degrees : ℚ) (dpsArg : Option ℚ) (block : Bool) (d : Device) (res : ℚ) (d' : Device)
      (tr : List Event), dpsArg = none ∨ dpsArg = some 0 →
      set_position degrees dpsArg block d = some (res, d', tr) →
      ∃ rest, tr = Event.readE _VELCOITY_LIMIT d.velocityLimit ::
        Event.writeE _PROFILE_VELCOITY d.velocityLimit :: rest) := by
  constructor
  · intro degrees dps block d res d' tr hdps h
    obtain ⟨d4, tr0, e5, hc, htr, he5⟩ := set_position_run degrees (some dps) block d res d' tr h
    obtain ⟨hres, d2, e12, d3, e3, hps, hsom, hd4, htr0⟩ :=
      set_position_command_spec _ _ _ _ _ _ hc
    rw [profile_step_some dps hdps d] at hps
    simp only [Option.some.injEq, Prod.mk.injEq] at hps
    obtain ⟨rfl, rfl⟩ := hps
    refine ⟨e3 ++ [Event.writeE _GOAL_POSITION (pyRound (degrees * PULSES_PER_DEGREE))] ++ e5, ?_⟩
    rw [htr, htr0]
    simp
  · intro degrees dpsArg block d res d' tr harg h
    obtain ⟨d4, tr0, e5, hc, htr, he5⟩ := set_position_run degrees dpsArg block d res d' tr h
    obtain ⟨hres, d2, e12, d3, e3, hps, hsom, hd4, htr0⟩ :=
      set_position_command_spec _ _ _ _ _ _ hc
    have hps2 : profile_step dpsArg d =
        some ({ d with profileVelocity := d.velocityLimit },
          [Event.readE _VELCOITY_LIMIT d.velocityLimit,
           Event.writeE _PROFILE_VELCOITY d.velocityLimit]) := by
      rcases harg with h1 | h1 <;> rw [h1]
      · exact profile_step_none d
      · exact profile_step_zero d
    rw [hps2] at hps
    simp only [Option.some.injEq, Prod.mk.injEq] at hps
    obtain ⟨rfl, rfl⟩ := hps
    refine ⟨e3 ++ [Event.writeE _GOAL_POSITION (pyRound (degrees * PULSES_PER_DEGREE))] ++ e5, ?_⟩
    rw [htr, htr0]
    simp

lemma run_pos_dps3 : set_position 0 (some 3) false dGoodA =
    some (0, { dGoodA with profileVelocity := 50 },
      [Event.writeE _PROFILE_VELCOITY 50, Event.readE _OPERATING_MODE 3,
       Event.readE _TORQUE_ENABLE 1, Event.writeE _GOAL_POSITION 0]) := by
  have hpr : pyRound (0 : ℚ) = 0 := by norm_num [pyRound]
  have hpr3 : pyRound ((3 : ℚ) * CRPMS_PER_DEGREES_PER_SECOND) = 50 := by
    norm_num [pyRound, CRPMS_PER_DEGREES_PER_SECOND]
  have hr0 : ((0 : ℤ) : ℚ) / PULSES_PER_DEGREE = 0 := by norm_num [PULSES_PER_DEGREE]
  simp [set_position, set_position_command, profile_step, set_operating_mode, torque_enable,
    torque_disable, wait_for_processing_torque, waitLoop, readR, writeR, devRead, devWrite,
    dGoodA, hpr, hpr3, hr0, _VELCOITY_LIMIT, _PROFILE_VELCOITY, _OPERATING_MODE,
    _TORQUE_ENABLE, _GOAL_POSITION, _PRESENT_POSITION, _PRESENT_VELOCITY, _CONTROLLER_STATE,
    _GOAL_VELOCITY, _OperatingMode.value, PROCESSING_TORQUE_ON, PROCESSING_TORQUE_OFF]

/-- Witness for the amended C7: a nonzero limit of 3 deg/s writes
profile-velocity 50; a zero limit writes the velocity-limit register value. -/
theorem claim_C7_amended_witness :
    (∃ rest, [Event.writeE _PROFILE_VELCOITY 50, Event.readE _OPERATING_MODE 3,
        Event.readE _TORQUE_ENABLE 1, Event.writeE _GOAL_POSITION 0] =
      Event.writeE _PROFILE_VELCOITY
        (pyRound (|(3 : ℚ)| * CRPMS_PER_DEGREES_PER_SECOND)) :: rest) ∧
    (∃ rest, [Event.readE _VELCOITY_LIMIT 1000, Event.writeE _PROFILE_VELCOITY 1000,
        Event.readE _OPERATING_MODE 3, Event.readE _TORQUE_ENABLE 1,
        Event.writeE _GOAL_POSITION 0] =
      Event.readE _VELCOITY_LIMIT dGoodA.velocityLimit ::
        Event.writeE _PROFILE_VELCOITY dGoodA.velocityLimit :: rest) :=
  ⟨claim_C7_amended.1 0 3 false dGoodA 0 { dGoodA with profileVelocity := 50 } _
      (by norm_num) run_pos_dps3,
   claim_C7_amended.2 0 (some 0) false dGoodA 0 { dGoodA with profileVelocity := 1000 } _
      (Or.inr rfl) run_pos_zero⟩

/-- C8 counterexample: on a device whose torque-disable settle never
completes, close does not complete either and the closePort event is never
emitted - the transport close is NOT attempted when the torque-disable step
fails, contrary to the claim. -/
theorem claim_C8_counterexample :
    torque_disable dGoodA = none ∧ close dGoodA = none := by
  constructor
  · rfl
  · rfl

/-- C8 (amended): close performs the torque-disable write-and-settle first
and then closes the transport; when torque-disable completes, the closePort
event follows its trace; when torque-disable fails, the failure propagates
and closePort is not attempted. -/
theorem claim_C8_amended :
    (∀ (d d1 : Device) (tr : List Event), torque_disable d = some (d1, tr) →
      close d = some (d1, tr ++ [Event.closePortE])) ∧
    (∀ d : Device, torque_disable d = none → close d = none) := by
  constructor
  · intro d d1 tr h
    unfold close
    rw [h]
  · intro d h
    unfold close
    rw [h]

def dDis : Device :=
  { operatingMode := 3, torqueEnable := 1, profileVelocity := 0, velocityLimit := 1000,
    goalPosition := 0, goalVelocity := 0, controllerStates := [0],
    presentPositions := [], presentVelocities := [] }

def dDisAfter : Device :=
  { operatingMode := 3, torqueEnable := 0, profileVelocity := 0, velocityLimit := 1000,
    goalPosition := 0, goalVelocity := 0, controllerStates := [],
    presentPositions := [], presentVelocities := [] }

/-- Witness for the amended C8: a successful torque-disable followed by the
closePort event, and a failing torque-disable propagated. -/
theorem claim_C8_witness :
    close dDis = some (dDisAfter,
      [Event.writeE _TORQUE_ENABLE 0, Event.readE _CONTROLLER_STATE 0] ++
        [Event.closePortE]) ∧
    close dGoodA = none :=
  ⟨claim_C8_amended.1 dDis dDisAfter
      [Event.writeE _TORQUE_ENABLE 0, Event.readE _CONTROLLER_STATE 0] (by decide),
   claim_C8_amended.2 dGoodA (by decide)⟩

/-- C10: passing a velocity limit of 0 to set_position behaves identically
to passing no velocity limit at all - the source tests the argument for
truthiness, so both take the velocity-limit-register branch. -/
theorem claim_C10_zero_velocity_limit (degrees : ℚ) (block : Bool) (d : Device) :
    set_position degrees (some 0) block d = set_position degrees none block d := by
  have h : profile_step (some 0) d = profile_step none d := by
    rw [profile_step_zero, profile_step_none]
  unfold set_position set_position_command
  rw [h]

end DynY
